import Mathlib

/-!
Verification of the StockPulse prediction engine (`src/predictor.py`,
provider layer `src/stock_data.py`).

Shallow embedding conventions:
* Python floats are modelled as exact rationals (the development is generic
  over a `LinearOrderedField` with a `FloorRing` so that the Bollinger
  analyzer, which needs a square root, can be instantiated at `ℝ`).
* `round(x, n)` in CPython rounds half to even on the decimal value; it is
  modelled by `roundTo n` built on `rhe`, exact round-half-to-even.
* `max(a, min(b, x))` on non-NaN floats agrees with the mathematical
  `max`/`min`, which is used directly.  The one place a NaN can arise from
  clean numeric input (the 0/0 in the RSI quotient) is folded into an
  explicit branch with a comment deriving the float behaviour.
* Division by zero: Lean's field convention `x / 0 = 0` stands in for the
  IEEE `inf`/`NaN` results of vectorised pandas divisions.  Every such spot
  is either guarded in the source itself or feeds only a value that is
  subsequently clamped, and no claim below depends on the junk value.
* Library calls whose numeric output cannot be reproduced exactly
  (sklearn's classifier, pandas date grouping, `datetime.now`) enter the
  model as explicit oracle parameters; the surrounding control flow and
  arithmetic are translated from the source.
-/

namespace StockPulse

section Rounding

variable {R : Type} [LinearOrderedField R] [FloorRing R]

/-- `max(-1.0, min(1.0, x))`, the clamp used throughout `predictor.py`. -/
def clamp (x : R) : R := max (-1) (min 1 x)

/-- Round half to even to an integer (CPython `round` tie-breaking). -/
def rhe (x : R) : ℤ :=
  if x - ⌊x⌋ < 1 / 2 then ⌊x⌋
  else if (1 : R) / 2 < x - ⌊x⌋ then ⌊x⌋ + 1
  else if 2 ∣ ⌊x⌋ then ⌊x⌋ else ⌊x⌋ + 1

/-- `round(x, k)` of CPython on the exact value. -/
def roundTo (k : ℕ) (x : R) : R := (rhe (x * 10 ^ k) : R) / 10 ^ k

theorem clamp_le_one (x : R) : clamp x ≤ 1 :=
  max_le (by norm_num) (min_le_left _ _)

theorem neg_one_le_clamp (x : R) : -1 ≤ clamp x := le_max_left _ _

theorem rhe_le (x : R) : (rhe x : R) ≤ x + 1 / 2 := by
  unfold rhe
  have hfl : (⌊x⌋ : R) ≤ x := Int.floor_le x
  split
  · linarith
  · split
    · rename_i h1 h2
      push_cast
      linarith
    · split <;> push_cast <;> push_neg at * <;> linarith

theorem le_rhe (x : R) : x - 1 / 2 ≤ (rhe x : R) := by
  unfold rhe
  have hfl : x - 1 < (⌊x⌋ : R) := Int.sub_one_lt_floor x
  split
  · rename_i h1
    linarith
  · split
    · rename_i h1 h2
      push_cast
      linarith
    · split <;> push_cast <;> push_neg at * <;> linarith

theorem rhe_intCast (n : ℤ) : rhe (n : R) = n := by
  unfold rhe
  simp

theorem floor_le_rhe (x : R) : ⌊x⌋ ≤ rhe x := by
  unfold rhe
  split
  · omega
  · split
    · omega
    · split <;> omega

theorem rhe_le_floor_add_one (x : R) : rhe x ≤ ⌊x⌋ + 1 := by
  unfold rhe
  split
  · omega
  · split
    · omega
    · split <;> omega

theorem rhe_eq_floor_of_frac_lt {x : R} (h : x - ⌊x⌋ < 1 / 2) : rhe x = ⌊x⌋ := by
  unfold rhe
  rw [if_pos h]

theorem rhe_eq_of_frac_gt {x : R} (h : 1 / 2 < x - ⌊x⌋) : rhe x = ⌊x⌋ + 1 := by
  unfold rhe
  rw [if_neg (by linarith), if_pos h]

theorem rhe_eq_of_frac_tie {x : R} (h : x - ⌊x⌋ = 1 / 2) :
    rhe x = if 2 ∣ ⌊x⌋ then ⌊x⌋ else ⌊x⌋ + 1 := by
  unfold rhe
  rw [if_neg (by rw [h]; exact lt_irrefl _), if_neg (by rw [h]; exact lt_irrefl _)]

theorem rhe_mono {x y : R} (h : x ≤ y) : rhe x ≤ rhe y := by
  have hfl : ⌊x⌋ ≤ ⌊y⌋ := Int.floor_le_floor h
  rcases lt_or_eq_of_le hfl with hlt | heq
  · have h1 := rhe_le_floor_add_one x
    have h2 := floor_le_rhe y
    omega
  · -- same floor: compare fractional parts
    have hfrac : x - (⌊x⌋ : R) ≤ y - ⌊y⌋ := by
      rw [← heq]
      linarith
    by_cases hx1 : x - (⌊x⌋ : R) < 1 / 2
    · rw [rhe_eq_floor_of_frac_lt hx1]
      have := floor_le_rhe y
      omega
    · push_neg at hx1
      rcases lt_or_eq_of_le hx1 with hx2 | hx2
      · have hy2 : 1 / 2 < y - (⌊y⌋ : R) := lt_of_lt_of_le hx2 hfrac
        rw [rhe_eq_of_frac_gt hx2, rhe_eq_of_frac_gt hy2]
        omega
      · rw [rhe_eq_of_frac_tie hx2.symm]
        have hy1 : (1 : R) / 2 ≤ y - ⌊y⌋ := by
          rw [hx2]
          exact hfrac
        rcases lt_or_eq_of_le hy1 with hy2 | hy2
        · rw [rhe_eq_of_frac_gt hy2]
          split <;> omega
        · rw [rhe_eq_of_frac_tie hy2.symm, heq]

theorem roundTo_mono (k : ℕ) {x y : R} (h : x ≤ y) : roundTo k x ≤ roundTo k y := by
  unfold roundTo
  have hp : (0 : R) < 10 ^ k := by positivity
  have h2 := rhe_mono (R := R) (mul_le_mul_of_nonneg_right h (le_of_lt hp))
  have h3 : ((rhe (x * 10 ^ k) : ℤ) : R) ≤ ((rhe (y * 10 ^ k) : ℤ) : R) := by
    exact_mod_cast h2
  gcongr

theorem roundTo_of_mul_eq_int (k : ℕ) (x : R) (n : ℤ) (h : x * 10 ^ k = (n : R)) :
    roundTo k x = x := by
  unfold roundTo
  rw [h, rhe_intCast, ← h]
  have hp : (10 : R) ^ k ≠ 0 := by positivity
  field_simp

theorem roundTo_one (k : ℕ) : roundTo k (1 : R) = 1 := by
  apply roundTo_of_mul_eq_int k 1 (10 ^ k)
  push_cast
  ring

theorem roundTo_neg_one (k : ℕ) : roundTo k (-1 : R) = -1 := by
  apply roundTo_of_mul_eq_int k (-1) (-(10 ^ k))
  push_cast
  ring

/-- The ubiquitous `round(max(-1.0, min(1.0, s)), 3)` stays in `[-1, 1]`. -/
theorem roundTo_clamp_mem (k : ℕ) (x : R) :
    -1 ≤ roundTo k (clamp x) ∧ roundTo k (clamp x) ≤ 1 := by
  constructor
  · have := roundTo_mono (R := R) k (neg_one_le_clamp x)
    rwa [roundTo_neg_one] at this
  · have := roundTo_mono (R := R) k (clamp_le_one x)
    rwa [roundTo_one] at this

end Rounding

/-- One OHLCV row of a price history (`PriceSeries` rows; timestamps are
handled by the date-grouping oracles, so only the numeric columns appear). -/
structure Bar (R : Type) where
  close : R
  high : R
  low : R
  volume : R

section ListHelpers

variable {R : Type} [LinearOrderedField R]

/-- The last `n` elements of a list (`Series.tail(n)` / a full rolling window
ending at the last row). -/
def lastN (n : ℕ) (l : List R) : List R := l.drop (l.length - n)

/-- Arithmetic mean (`Series.mean()`); `0` on the empty list. -/
def mean (l : List R) : R := l.sum / l.length

/-- `Series.diff()` with the leading NaN dropped: `d i = x (i+1) - x i`. -/
def diffs (l : List R) : List R := l.zipWith (fun a b => b - a) l.tail

/-- `Series.ewm(span, adjust=False).mean()` recurrence after the seed. -/
def ewmAux (a : R) : R → List R → List R
  | _, [] => []
  | prev, x :: xs =>
    let y := a * x + (1 - a) * prev
    y :: ewmAux a y xs

/-- `Series.ewm(span=s, adjust=False).mean()`: `y 0 = x 0`,
`y t = a * x t + (1 - a) * y (t-1)` with `a = 2 / (s + 1)`. -/
def ewm (span : ℕ) : List R → List R
  | [] => []
  | x :: xs => x :: ewmAux (2 / ((span : R) + 1)) x xs

theorem lastN_length (n : ℕ) (l : List R) (h : n ≤ l.length) :
    (lastN n l).length = n := by
  simp [lastN]
  omega

end ListHelpers

section Analyzers

variable {R : Type} [LinearOrderedField R] [FloorRing R]

/-- Fields of `analyze_weekday`'s result used by later claims; the
per-weekday statistics table is presentation data and omitted. -/
structure WeekdayResult (R : Type) where
  today_pct_positive : R
  signal : R
  hasError : Bool

/-- `_empty_weekday_result` (predictor.py 1235-1245). -/
def emptyWeekdayResult : WeekdayResult R :=
  { today_pct_positive := 50, signal := 0, hasError := true }

/-- `analyze_weekday` (predictor.py 43-95).  The pandas weekday grouping and
recency weighting produce `today_pct_positive` (defaulting to `50.0` when
today's weekday has no rows); that statistic enters as the oracle
`todayPctPositive` and the signal arithmetic of lines 84 and 92 is
translated directly. -/
def analyze_weekday (hist : Option (List (Bar R))) (todayPctPositive : R) :
    WeekdayResult R :=
  match hist with
  | none => emptyWeekdayResult
  | some h =>
    if h.length < 30 then emptyWeekdayResult
    else
      { today_pct_positive := todayPctPositive
        signal := roundTo 3 (clamp ((todayPctPositive - 50) / 25))
        hasError := false }

/-- The `weekly_trend` sub-dictionary of `analyze_seasonal`. -/
structure WeeklyTrend (R : Type) where
  direction : String
  streak : ℕ
  avg_weekly_return : R
  up_weeks : ℕ
  down_weeks : ℕ

/-- Result fields of `analyze_seasonal` used downstream. -/
structure SeasonalResult (R : Type) where
  current_month_pct_positive : R
  ytd_vs_last_year : R
  weekly_trend : WeeklyTrend R
  signal : R
  hasError : Bool

/-- `_empty_seasonal_result` (predictor.py 1247-1260). -/
def emptySeasonalResult : SeasonalResult R :=
  { current_month_pct_positive := 50
    ytd_vs_last_year := 0
    weekly_trend :=
      { direction := "flat", streak := 0, avg_weekly_return := 0
        up_weeks := 0, down_weeks := 0 }
    signal := 0
    hasError := true }

/-- Streak loop of predictor.py 168-172: walk the weekly returns from the
most recent backwards, counting while they match the prevailing direction. -/
def streakCount (dir : String) (rets : List R) : ℕ :=
  (rets.reverse.takeWhile
    (fun r => decide ((dir = "up" ∧ 0 < r) ∨ (dir = "down" ∧ r < 0)))).length

/-- Weekly-trend block of `analyze_seasonal` (predictor.py 154-180).
`weeklyReturns` is the oracle for
`hist['Close'].resample('W').last().tail(5).pct_change().dropna()`
(at most 4 values); everything after that is translated. -/
def weeklyTrendOf (weeklyReturns : List R) : WeeklyTrend R :=
  if weeklyReturns.length < 2 then
    { direction := "flat", streak := 0, avg_weekly_return := 0
      up_weeks := 0, down_weeks := 0 }
  else
    let up := (weeklyReturns.filter (fun r => decide (0 < r))).length
    let down := (weeklyReturns.filter (fun r => decide (r < 0))).length
    let dir := if down < up then "up" else if up < down then "down" else "flat"
    { direction := dir
      streak := streakCount dir weeklyReturns
      avg_weekly_return := roundTo 2 (mean weeklyReturns * 100)
      up_weeks := up
      down_weeks := down }

/-- `analyze_seasonal` (predictor.py 97-209).  Oracles stand for the pandas
monthly grouping (`monthPct`, defaulting to `50.0`), the two YTD
percentages of lines 138-148 (`ytdReturn`, `lastYtd`, already multiplied by
100 as in the source), and the resampled weekly returns; the signal
combination of lines 152 and 182-194 is translated directly. -/
def analyze_seasonal (hist5 : Option (List R)) (monthPct ytdReturn lastYtd : R)
    (weeklyReturns : List R) : SeasonalResult R :=
  match hist5 with
  | none => emptySeasonalResult
  | some h =>
    if h.length < 252 then emptySeasonalResult
    else
      let ytdVsLast := roundTo 2 (ytdReturn - lastYtd)
      let wt : WeeklyTrend R := weeklyTrendOf weeklyReturns
      let monthSignal := (monthPct - 50) / 25
      let weeklySignal : R :=
        if wt.direction = "up" then 1 / 2 + (wt.streak : R) * (1 / 10)
        else if wt.direction = "down" then -(1 / 2) - (wt.streak : R) * (1 / 10)
        else 0
      let ytdSignal := clamp (ytdVsLast / 20)
      let combined := monthSignal * (4 / 10) + weeklySignal * (3 / 10) +
        ytdSignal * (3 / 10)
      { current_month_pct_positive := monthPct
        ytd_vs_last_year := ytdVsLast
        weekly_trend := wt
        signal := roundTo 3 (clamp combined)
        hasError := false }

/-- `rsi` sub-result of `analyze_technical`.  `value = none` models the NaN
produced by a flat 14-period window (0/0 average gain over average loss). -/
structure RsiInfo (R : Type) where
  value : Option R
  interpretation : String
  signal : R

/-- `macd` sub-result of `analyze_technical`. -/
structure MacdInfo (R : Type) where
  macd_line : R
  signal_line : R
  histogram : R
  interpretation : String
  signal : R

/-- `ma_trend` sub-result of `analyze_technical`. -/
structure MaInfo (R : Type) where
  ma20 : R
  ma50 : R
  ma200 : R
  current_price : R
  above_ma20 : Bool
  above_ma50 : Bool
  above_ma200 : Bool
  position : String
  crossovers : List String
  signal : R

/-- `analyze_technical`'s result dictionary. -/
structure TechnicalResult (R : Type) where
  rsi : RsiInfo R
  macd : MacdInfo R
  ma_trend : MaInfo R

/-- `_empty_technical_result` (predictor.py 1262-1269). -/
def emptyTechnicalResult : TechnicalResult R :=
  { rsi := { value := some 50, interpretation := "Insufficient Data", signal := 0 }
    macd := { macd_line := 0, signal_line := 0, histogram := 0
              interpretation := "Insufficient Data", signal := 0 }
    ma_trend := { ma20 := 0, ma50 := 0, ma200 := 0, current_price := 0
                  above_ma20 := false, above_ma50 := false, above_ma200 := false
                  position := "Unknown", crossovers := [], signal := 0 } }

/-- `gain = delta.where(delta > 0, 0.0)` over the diffed series. -/
def gains (closes : List R) : List R :=
  (diffs closes).map (fun d => if 0 < d then d else 0)

/-- `loss = (-delta).where(delta < 0, 0.0)` over the diffed series. -/
def losses (closes : List R) : List R :=
  (diffs closes).map (fun d => if d < 0 then -d else 0)

/-- `gain.rolling(window=14).mean()` at the last row (needs ≥ 15 closes). -/
def avgGainLast (closes : List R) : R := mean (lastN 14 (gains closes))

/-- `loss.rolling(window=14).mean()` at the last row. -/
def avgLossLast (closes : List R) : R := mean (lastN 14 (losses closes))

/-- `round(float(rsi_series.iloc[-1]), 1)` (predictor.py 221-228).  Float
semantics of the quotient `avg_gain / avg_loss`: with `avg_loss > 0` it is
finite, with `avg_loss = 0 < avg_gain` it is `+inf` so the RSI collapses to
`100.0`, and with `0/0` it is NaN (`none`). -/
def rsi14 (closes : List R) : Option R :=
  let ag := avgGainLast closes
  let al := avgLossLast closes
  if 0 < al then some (roundTo 1 (100 - 100 / (1 + ag / al)))
  else if 0 < ag then some 100
  else none

/-- RSI interpretation/signal branch (predictor.py 230-240) on the rounded
RSI value.  On the NaN row every comparison is False, so the source falls
into the `Neutral` branch, computes `(50 - NaN)/40 = NaN`, and the clamp
`max(-1.0, min(1.0, NaN))` evaluates to `1.0` because CPython's `min` and
`max` keep their first argument when a comparison with NaN is False. -/
def rsiBlock (closes : List R) : RsiInfo R :=
  match rsi14 closes with
  | some rv =>
    if rv < 30 then
      { value := some rv, interpretation := "Oversold"
        signal := roundTo 3 (clamp (1 / 2 + (30 - rv) / 60)) }
    else if 70 < rv then
      { value := some rv, interpretation := "Overbought"
        signal := roundTo 3 (clamp (-(1 / 2) - (rv - 70) / 60)) }
    else
      { value := some rv, interpretation := "Neutral"
        signal := roundTo 3 (clamp ((50 - rv) / 40)) }
  | none =>
    { value := none, interpretation := "Neutral", signal := 1 }

/-- MACD block (predictor.py 242-273). -/
def macdBlock (closes : List R) : MacdInfo R :=
  let macdLine := (ewm 12 closes).zipWith (fun a b => a - b) (ewm 26 closes)
  let signalLine := ewm 9 macdLine
  let histogram := macdLine.zipWith (fun a b => a - b) signalLine
  let currentPrice := (closes.getLast?).getD 0
  let macdVal := roundTo 4 ((macdLine.getLast?).getD 0)
  let signalVal := roundTo 4 ((signalLine.getLast?).getD 0)
  let histVal := roundTo 4 ((histogram.getLast?).getD 0)
  -- `hist_normalized = hist_val / current_price * 100 if current_price else 0`
  let histNormalized := if currentPrice ≠ 0 then histVal / currentPrice * 100 else 0
  let base : String × R :=
    if 0 < histVal then ("Bullish", min 1 (histNormalized * 10))
    else if histVal < 0 then ("Bearish", max (-1) (histNormalized * 10))
    else ("Neutral", 0)
  -- `recent_hist = histogram.tail(3).values` compared on the raw values
  let hLast := (histogram.getLast?).getD 0
  let hPrev := (histogram.dropLast.getLast?).getD 0
  let adjusted : String × R :=
    if 2 ≤ histogram.length then
      if hPrev < 0 ∧ 0 < hLast then ("Bullish Crossover", min 1 (base.2 + 3 / 10))
      else if 0 < hPrev ∧ hLast < 0 then
        ("Bearish Crossover", max (-1) (base.2 - 3 / 10))
      else base
    else base
  { macd_line := macdVal, signal_line := signalVal, histogram := histVal
    interpretation := adjusted.1, signal := roundTo 3 (clamp adjusted.2) }

/-- Moving-average block (predictor.py 275-312).  At exactly 200 rows the
MA200 value two bars back is NaN, whose comparisons are False, so the
crossover test requires at least 201 rows. -/
def maBlock (closes : List R) : MaInfo R :=
  let currentPrice := (closes.getLast?).getD 0
  let ma20v := roundTo 2 (mean (lastN 20 closes))
  let ma50v := roundTo 2 (mean (lastN 50 closes))
  let ma200v := roundTo 2 (mean (lastN 200 closes))
  let above20 := decide (ma20v < currentPrice)
  let above50 := decide (ma50v < currentPrice)
  let above200 := decide (ma200v < currentPrice)
  let aboveCount : ℕ :=
    (if above20 then 1 else 0) + (if above50 then 1 else 0) +
      (if above200 then 1 else 0)
  let crossovers : List String :=
    if 201 ≤ closes.length then
      let m50Prev := mean (lastN 50 closes.dropLast)
      let m50Last := mean (lastN 50 closes)
      let m200Prev := mean (lastN 200 closes.dropLast)
      let m200Last := mean (lastN 200 closes)
      if m50Prev < m200Prev ∧ m200Last < m50Last then
        ["Golden Cross (MA50 crossed above MA200)"]
      else if m200Prev < m50Prev ∧ m50Last < m200Last then
        ["Death Cross (MA50 crossed below MA200)"]
      else []
    else []
  let position :=
    if aboveCount = 3 then "Strong Uptrend"
    else if aboveCount = 2 then "Moderate Uptrend"
    else if aboveCount = 1 then "Moderate Downtrend"
    else "Strong Downtrend"
  let alignmentBonus : R :=
    if ma50v < ma20v ∧ ma200v < ma50v then 1 / 5
    else if ma20v < ma50v ∧ ma50v < ma200v then -(1 / 5)
    else 0
  let maSignal := ((aboveCount : R) - 3 / 2) / (3 / 2) + alignmentBonus
  { ma20 := ma20v, ma50 := ma50v, ma200 := ma200v
    current_price := roundTo 2 currentPrice
    above_ma20 := above20, above_ma50 := above50, above_ma200 := above200
    position := position, crossovers := crossovers
    signal := roundTo 3 (clamp maSignal) }

/-- `analyze_technical` (predictor.py 211-341) on the close column. -/
def analyze_technical (hist : Option (List R)) : TechnicalResult R :=
  match hist with
  | none => emptyTechnicalResult
  | some closes =>
    if closes.length < 200 then emptyTechnicalResult
    else
      { rsi := rsiBlock closes
        macd := macdBlock closes
        ma_trend := maBlock closes }

/-- Sample variance with `ddof = 1` (pandas `rolling(.).std()` squared). -/
def svar (w : List R) : R :=
  (w.map (fun x => (x - mean w) ^ 2)).sum / ((w.length : R) - 1)

/-- All full sliding windows of size `n`, oldest first (a `rolling(n)`
computation after `dropna`). -/
def windows (n : ℕ) (l : List R) : List (List R) :=
  (List.range (l.length + 1 - n)).map (fun i => (l.drop i).take n)

/-- `analyze_bollinger`'s result dictionary. -/
structure BollingerResult (R : Type) where
  signal : R
  upper : R
  lower : R
  middle : R
  bandwidth : R
  pct_b : R
  squeeze : Bool
  interpretation : String

/-- `ma20.iloc[-1]` of the Bollinger block. -/
def bollMiddle (closes : List R) : R := mean (lastN 20 closes)

/-- `std20.iloc[-1]`: the square root is the float `sqrt`, kept abstract as
`sqrtFn` (instantiated with `Real.sqrt` in the theorems). -/
def bollStd (sqrtFn : R → R) (closes : List R) : R := sqrtFn (svar (lastN 20 closes))

/-- `upper.iloc[-1] = ma20 + 2 * std20` at the last row. -/
def bollUpper (sqrtFn : R → R) (closes : List R) : R :=
  bollMiddle closes + 2 * bollStd sqrtFn closes

/-- `lower.iloc[-1] = ma20 - 2 * std20` at the last row. -/
def bollLower (sqrtFn : R → R) (closes : List R) : R :=
  bollMiddle closes - 2 * bollStd sqrtFn closes

/-- `band_width = upper_val - lower_val` (predictor.py 363). -/
def bollBandWidth (sqrtFn : R → R) (closes : List R) : R :=
  bollUpper sqrtFn closes - bollLower sqrtFn closes

/-- `pct_b = (current_price - lower_val) / band_width if band_width > 0
else 0.5` (predictor.py 364). -/
def bollPctB (sqrtFn : R → R) (closes : List R) : R :=
  if 0 < bollBandWidth sqrtFn closes then
    ((closes.getLast?).getD 0 - bollLower sqrtFn closes) / bollBandWidth sqrtFn closes
  else 1 / 2

/-- `bandwidth_ratio = band_width / middle_val if middle_val > 0 else 0`
(predictor.py 366). -/
def bollBandwidthRatio (sqrtFn : R → R) (closes : List R) : R :=
  if 0 < bollMiddle closes then bollBandWidth sqrtFn closes / bollMiddle closes
  else 0

/-- `bw_series = ((upper - lower) / ma20).dropna()` (predictor.py 367): on
each full window the row value is `4 * std / mean`.  Lean's `x / 0 = 0`
convention stands in for the float `inf`/NaN of a zero-mean window, which
can only perturb the `squeeze` flag and no claim depends on that case. -/
def bollBwSeries (sqrtFn : R → R) (closes : List R) : List R :=
  (windows 20 closes).map (fun w => 4 * sqrtFn (svar w) / mean w)

/-- `avg_bw` (predictor.py 368). -/
def bollAvgBw (sqrtFn : R → R) (closes : List R) : R :=
  if 120 ≤ (bollBwSeries sqrtFn closes).length then
    mean (lastN 120 (bollBwSeries sqrtFn closes))
  else mean (bollBwSeries sqrtFn closes)

/-- `squeeze = bandwidth_ratio < avg_bw * 0.75` (predictor.py 369). -/
def bollSqueeze (sqrtFn : R → R) (closes : List R) : Bool :=
  decide (bollBandwidthRatio sqrtFn closes < bollAvgBw sqrtFn closes * (3 / 4))

/-- Body of `analyze_bollinger` past the length guard (predictor.py
352-396). -/
def bollingerBody (sqrtFn : R → R) (closes : List R) : BollingerResult R :=
  let pctB := bollPctB sqrtFn closes
  let squeeze := bollSqueeze sqrtFn closes
  let base : R × String :=
    if pctB < 1 / 5 then
      (1 / 2 + (1 / 5 - pctB) * (5 / 2), "Near Lower Band (Oversold)")
    else if 4 / 5 < pctB then
      (-(1 / 2) - (pctB - 4 / 5) * (5 / 2), "Near Upper Band (Overbought)")
    else ((1 / 2 - pctB) * 1, "Within Bands")
  let adjusted : R × String :=
    if squeeze then (base.1 * (1 / 2), base.2 ++ " (Squeeze)") else base
  { signal := roundTo 3 (clamp adjusted.1)
    upper := roundTo 2 (bollUpper sqrtFn closes)
    lower := roundTo 2 (bollLower sqrtFn closes)
    middle := roundTo 2 (bollMiddle closes)
    bandwidth := roundTo 2 (bollBandwidthRatio sqrtFn closes * 100)
    pct_b := roundTo 3 pctB
    squeeze := squeeze
    interpretation := adjusted.2 }

/-- `analyze_bollinger` (predictor.py 343-400): the length guard around
`bollingerBody`. -/
def analyze_bollinger (sqrtFn : R → R) (hist : Option (List R)) : BollingerResult R :=
  match hist with
  | none =>
    { signal := 0, upper := 0, lower := 0, middle := 0, bandwidth := 0
      pct_b := 1 / 2, squeeze := false, interpretation := "Insufficient Data" }
  | some closes =>
    if closes.length < 20 then
      { signal := 0, upper := 0, lower := 0, middle := 0, bandwidth := 0
        pct_b := 1 / 2, squeeze := false, interpretation := "Insufficient Data" }
    else bollingerBody sqrtFn closes

/-- `analyze_volume_trend`'s result dictionary (interpretation f-string
reduced to its trend and divergence components). -/
structure VolumeResult (R : Type) where
  signal : R
  volume_ratio : R
  trend : String
  divergence : String

/-- `close.iloc[-6]` (predictor.py 420). -/
def close6Back (bars : List (Bar R)) : R :=
  ((lastN 6 (bars.map (fun b => b.close))).head?).getD 0

/-- Normal-path body of `analyze_volume_trend` (predictor.py 409-467). -/
def volumeTrendCore (bars : List (Bar R)) : VolumeResult R :=
      let volume := bars.map (fun b => b.volume)
      let closes := bars.map (fun b => b.close)
      let avgVol20 := mean (lastN 20 volume)
      let avgVol5 := mean (lastN 5 volume)
      let volumeRatio := if 0 < avgVol20 then avgVol5 / avgVol20 else 1
      let priceChange5d : R :=
          if 6 ≤ closes.length then
            (((closes.getLast?).getD 0) - close6Back bars) / close6Back bars
          else 0
      let base : String × R :=
          if 3 / 2 < volumeRatio then
            ("High Volume",
              if 0 < priceChange5d then min 1 ((volumeRatio - 1) * (1 / 2))
              else max (-1) (-((volumeRatio - 1) * (1 / 2))))
          else if volumeRatio < 3 / 5 then ("Low Volume", 0)
          else
            ("Normal Volume",
              if 1 / 50 < priceChange5d then 1 / 5
              else if priceChange5d < -(1 / 50) then -(1 / 5)
              else 0)
        let withDiv : R × String :=
          if 20 ≤ closes.length then
            let obvDeltas := (diffs closes).zipWith
              (fun d v => (if 0 < d then (1 : R) else if d < 0 then -1 else 0) * v)
              volume.tail
            let priceTrend := ((closes.getLast?).getD 0) -
              (((lastN 20 closes).head?).getD 0)
            let obvTrend := (lastN 19 obvDeltas).sum
            if 0 < priceTrend ∧ obvTrend < 0 then
              (max (-1) (base.2 - 3 / 10), "Bearish Divergence")
            else if priceTrend < 0 ∧ 0 < obvTrend then
              (min 1 (base.2 + 3 / 10), "Bullish Divergence")
            else (base.2, "")
          else (base.2, "")
        { signal := roundTo 3 (clamp withDiv.1)
          volume_ratio := roundTo 2 volumeRatio
          trend := base.1
          divergence := withDiv.2 }

/-- Body of `analyze_volume_trend` past the length guard.  The 5-day price
change (predictor.py 420) divides by a Python float, so a zero close 6
rows back raises `ZeroDivisionError` and the enclosing `try` returns the
`Error` result; otherwise the normal path runs. -/
def volumeTrendBody (bars : List (Bar R)) : VolumeResult R :=
  if 6 ≤ (bars.map (fun b => b.close)).length ∧ close6Back bars = 0 then
    { signal := 0, volume_ratio := 1, trend := "Normal", divergence := "Error" }
  else volumeTrendCore bars

/-- `analyze_volume_trend` (predictor.py 402-470): the length guard around
`volumeTrendBody`. -/
def analyze_volume_trend (hist : Option (List (Bar R))) : VolumeResult R :=
  match hist with
  | none =>
    { signal := 0, volume_ratio := 1, trend := "Normal"
      divergence := "Insufficient Data" }
  | some bars =>
    if bars.length < 30 then
      { signal := 0, volume_ratio := 1, trend := "Normal"
        divergence := "Insufficient Data" }
    else volumeTrendBody bars

/-- `analyze_atr`'s result dictionary. -/
structure AtrResult (R : Type) where
  signal : R
  atr : R
  atr_pct : R
  atr_ratio : R
  volatility : String

/-- The true-range series (predictor.py 484-487): row 0 has NaN shifted
components and pandas' NaN-skipping `max` leaves `high - low`; later rows
take the max of the three candidates. -/
def trueRanges (bars : List (Bar R)) : List R :=
  match bars with
  | [] => []
  | b0 :: rest =>
    (b0.high - b0.low) ::
      (rest.zipWith
        (fun b prev =>
          max (b.high - b.low) (max (|b.high - prev.close|) (|b.low - prev.close|)))
        (b0 :: rest))

/-- `analyze_atr` (predictor.py 472-523). -/
def analyze_atr (hist : Option (List (Bar R))) : AtrResult R :=
  match hist with
  | none => { signal := 0, atr := 0, atr_pct := 0, atr_ratio := 1, volatility := "Unknown" }
  | some bars =>
    if bars.length < 30 then
      { signal := 0, atr := 0, atr_pct := 0, atr_ratio := 1, volatility := "Unknown" }
    else
      let tr := trueRanges bars
      let currentPrice := ((bars.map (fun b => b.close)).getLast?).getD 0
      let atr14 := mean (lastN 14 tr)
      let atr50 := if 50 ≤ tr.length then mean (lastN 50 tr) else atr14
      let atrPct := if 0 < currentPrice then atr14 / currentPrice * 100 else 0
      let atrRatio := if 0 < atr50 then atr14 / atr50 else 1
      let branch : String × R :=
        if 3 / 2 < atrRatio then ("Very High", -(4 / 10))
        else if 6 / 5 < atrRatio then ("High", -(1 / 5))
        else if atrRatio < 7 / 10 then ("Low", 1 / 5)
        else if atrRatio < 17 / 20 then ("Below Average", 1 / 10)
        else ("Normal", 0)
      { signal := roundTo 3 (clamp branch.2)
        atr := roundTo 2 atr14
        atr_pct := roundTo 2 atrPct
        atr_ratio := roundTo 2 atrRatio
        volatility := branch.1 }

/-- `analyze_stochastic`'s result dictionary. -/
structure StochasticResult (R : Type) where
  signal : R
  k : R
  d : R
  interpretation : String

/-- `%K` at the last row of a bar list (predictor.py 536-539): the 14-bar
high/low range with the `.where(hl_range > 0, 1)` guard. -/
def stochK (bars : List (Bar R)) : R :=
  let lo := (((lastN 14 (bars.map (fun b => b.low))).minimum?).getD 0)
  let hi := (((lastN 14 (bars.map (fun b => b.high))).maximum?).getD 0)
  let range := hi - lo
  ((((bars.map (fun b => b.close)).getLast?).getD 0) - lo) /
    (if 0 < range then range else 1) * 100

/-- `analyze_stochastic` (predictor.py 525-575). -/
def analyze_stochastic (hist : Option (List (Bar R))) : StochasticResult R :=
  match hist with
  | none => { signal := 0, k := 50, d := 50, interpretation := "Insufficient Data" }
  | some bars =>
    if bars.length < 30 then
      { signal := 0, k := 50, d := 50, interpretation := "Insufficient Data" }
    else
      let kVal := stochK bars
      let kPrev := stochK bars.dropLast
      let kPrev2 := stochK bars.dropLast.dropLast
      let kPrev3 := stochK bars.dropLast.dropLast.dropLast
      let dVal := (kPrev2 + kPrev + kVal) / 3
      let dPrev := (kPrev3 + kPrev2 + kPrev) / 3
      let base : R × String :=
        if kVal < 20 then (1 / 2 + (20 - kVal) / 40, "Oversold")
        else if 80 < kVal then (-(1 / 2) - (kVal - 80) / 40, "Overbought")
        else ((50 - kVal) / 60, "Neutral")
      let adjusted : R × String :=
        if kPrev < dPrev ∧ dVal < kVal ∧ kVal < 30 then
          (min 1 (base.1 + 3 / 10), "Bullish Crossover")
        else if dPrev < kPrev ∧ kVal < dVal ∧ 70 < kVal then
          (max (-1) (base.1 - 3 / 10), "Bearish Crossover")
        else base
      { signal := roundTo 3 (clamp adjusted.1)
        k := roundTo 1 kVal
        d := roundTo 1 dVal
        interpretation := adjusted.2 }

/-- `analyze_relative_strength`'s result dictionary. -/
structure RelStrengthResult (R : Type) where
  signal : R
  rs_ratio : R
  interpretation : String

/-- `Series.pct_change(n).iloc[-1]`: `(last - x[-n-1]) / x[-n-1]`.  The
vectorised pandas division yields `inf`/NaN on a zero denominator; Lean's
`x / 0 = 0` stands in and only feeds clamped values. -/
def pctChangeLast (n : ℕ) (l : List R) : R :=
  let prev := ((lastN (n + 1) l).head?).getD 0
  (((l.getLast?).getD 0) - prev) / prev

/-- `analyze_relative_strength` (predictor.py 577-621).  The SPY benchmark
history is provider data (`spy`). -/
def analyze_relative_strength (hist : Option (List R)) (spy : Option (List R)) :
    RelStrengthResult R :=
  match hist with
  | none => { signal := 0, rs_ratio := 1, interpretation := "Insufficient Data" }
  | some closes =>
    if closes.length < 60 then
      { signal := 0, rs_ratio := 1, interpretation := "Insufficient Data" }
    else
      match spy with
      | none => { signal := 0, rs_ratio := 1, interpretation := "Market data unavailable" }
      | some spyCloses =>
        if spyCloses.length < 60 then
          { signal := 0, rs_ratio := 1, interpretation := "Market data unavailable" }
        else
          let rs20 := pctChangeLast 20 closes - pctChangeLast 20 spyCloses
          let rs5 := pctChangeLast 5 closes - pctChangeLast 5 spyCloses
          let combined := rs20 * (6 / 10) + rs5 * (4 / 10)
          let interp :=
            if 1 / 50 < combined then "Outperforming market"
            else if combined < -(1 / 50) then "Underperforming market"
            else "In line with market"
          { signal := roundTo 3 (clamp (combined / (1 / 20)))
            rs_ratio := roundTo 2 (combined * 100)
            interpretation := interp }

/-- `analyze_historical_pattern`'s result (lookback detail rows reduced to
their count). -/
structure HistoricalResult (R : Type) where
  signal : R
  lookbackCount : ℕ
  interpretation : String

/-- `_historical_interpretation` (predictor.py 688-699). -/
def historicalInterpretation (signal : R) : String :=
  if 3 / 10 < signal then "Historical dates were strongly positive"
  else if 1 / 10 < signal then "Historical dates were moderately positive"
  else if -(1 / 10) < signal then "Historical dates were mixed"
  else if -(3 / 10) < signal then "Historical dates were moderately negative"
  else "Historical dates were strongly negative"

/-- `_empty_historical_result` (predictor.py 701-706). -/
def emptyHistoricalResult : HistoricalResult R :=
  { signal := 0, lookbackCount := 0, interpretation := "Insufficient historical data" }

/-- The fixed lookback table of predictor.py 634-640 (days, weight). -/
def historicalLookbacks : List (ℕ × R) :=
  [(5, 30 / 100), (21, 25 / 100), (63, 20 / 100), (126, 15 / 100), (252, 10 / 100)]

/-- `analyze_historical_pattern` (predictor.py 623-686) on the close column.
`rets` is `Close.pct_change()` with its leading NaN dropped, so the return
of row `i` sits at index `i - 1`; the source only reads indices `≥ 1`. -/
def analyze_historical_pattern (hist : Option (List R)) : HistoricalResult R :=
  match hist with
  | none => emptyHistoricalResult
  | some closes =>
    if closes.length < 252 then emptyHistoricalResult
    else
      let n := closes.length
      let rets := (diffs closes).zipWith (fun d p => d / p) closes.dropLast
      let todayIdx := n - 1
      let picks := historicalLookbacks.filterMap (fun lb =>
        if todayIdx < lb.1 + 1 then none  -- `target_idx < 1` skip (target_idx < n always)
        else
          let target := todayIdx - lb.1
          let dayReturn := rets.getD (target - 1) 0
          let contextStart := max 1 (target - 1)
          let contextEnd := min (n - 1) (target + 1)
          let contextReturn :=
            ((rets.drop (contextStart - 1)).take (contextEnd + 1 - contextStart)).sum
          let combinedReturn := dayReturn * (6 / 10) + contextReturn * (4 / 10)
          some (clamp (combinedReturn / (1 / 50)) * lb.2, lb.2))
      let weightedSignal := (picks.map (fun p => p.1)).sum
      let totalWeight := (picks.map (fun p => p.2)).sum
      let finalSignal := if 0 < totalWeight then weightedSignal / totalWeight else 0
      let rounded := roundTo 3 (clamp finalSignal)
      { signal := rounded
        lookbackCount := picks.length
        interpretation := historicalInterpretation rounded }

/-- `analyze_ml`'s result dictionary. -/
structure MLResult (R : Type) where
  signal : R
  raw_signal : R
  probability_positive : R
  model_accuracy : R
  training_samples : ℕ
  validation_samples : ℕ
  interpretation : String

/-- `_empty_ml_result` (predictor.py 893-902). -/
def emptyMLResult : MLResult R :=
  { signal := 0, raw_signal := 0, probability_positive := 1 / 2
    model_accuracy := 50, training_samples := 0, validation_samples := 0
    interpretation := "Insufficient data for ML model" }

/-- Direction word of `_ml_interpretation` (predictor.py 882-891); the
surrounding f-string formatting is elided. -/
def mlDirection (signal : R) : String :=
  if |signal| < 1 / 10 then "neutral"
  else if 0 < signal then "bullish"
  else "bearish"

/-- The walk-forward fold loop (predictor.py 824-842): fold sizes are a
fifth of the clean row count, folds whose validation slice would be empty
are skipped, and each surviving fold contributes its oracle accuracy. -/
def mlFoldAccuracies (cleanLen : ℕ) (foldAcc : ℕ → R) : List R :=
  (List.range 3).filterMap (fun fold =>
    let trainEnd := cleanLen / 5 * (fold + 2)
    let valEnd := min (trainEnd + cleanLen / 5) cleanLen
    if valEnd ≤ trainEnd then none else some (foldAcc fold))

/-- `avg_accuracy = np.mean(accuracies) if accuracies else 0.5`
(predictor.py 844). -/
def mlAvgAccuracy (cleanLen : ℕ) (foldAcc : ℕ → R) : R :=
  let accuracies := mlFoldAccuracies cleanLen foldAcc
  if accuracies.isEmpty then 1 / 2 else accuracies.sum / accuracies.length

/-- `analyze_ml` (predictor.py 708-880).  The pandas feature pipeline and
the sklearn classifier enter as oracles: `cleanLen` is the row count after
`dropna` (line 816), `latestNull` is the missing-feature test of line 858,
`foldAcc` gives each walk-forward fold's held-out accuracy (line 842), and
`probPositive` is the class-1 probability of lines 861-862 (already
defaulted to `0.5` when the model knows a single class).  The guards, the
fold bookkeeping and the signal arithmetic are translated from the source;
`int(len(X) * 0.85)` is modelled as exact truncation. -/
def analyze_ml (hist : Option (List (Bar R))) (cleanLen : ℕ) (latestNull : Bool)
    (foldAcc : ℕ → R) (probPositive : R) : MLResult R :=
  match hist with
  | none => emptyMLResult
  | some h =>
    if h.length < 300 then emptyMLResult
    else if cleanLen < 200 then emptyMLResult
    else
      let avgAccuracy : R := mlAvgAccuracy cleanLen foldAcc
      let splitIdx := cleanLen * 85 / 100
      if latestNull then emptyMLResult
      else
        let signal := roundTo 3 (clamp ((probPositive - 1 / 2) * 2))
        let accuracyMultiplier := max 0 (min 1 ((avgAccuracy - 1 / 2) * 4))
        let adjusted := roundTo 3 (signal * max (3 / 10) accuracyMultiplier)
        { signal := adjusted
          raw_signal := signal
          probability_positive := roundTo 3 probPositive
          model_accuracy := roundTo 1 (avgAccuracy * 100)
          training_samples := splitIdx
          validation_samples := cleanLen - splitIdx
          interpretation := mlDirection adjusted }

/-- A news article as produced by `StockData.get_news`: those dictionaries
always carry `sentiment`, `sentiment_score` and `published` (0 for an
unknown publish time), so the `.get` defaults of predictor.py 929-931 are
never exercised. -/
structure Article (R : Type) where
  sentiment : String
  sentiment_score : R
  published : ℤ

/-- `analyze_sentiment`'s result dictionary (headline list elided). -/
structure SentimentResult (R : Type) where
  articles_analyzed : ℕ
  positive_count : ℕ
  negative_count : ℕ
  neutral_count : ℕ
  weighted_score : R
  signal : R

/-- The zero result returned for an empty news list and by the except
clause (predictor.py 908-916 and 977-985). -/
def zeroSentimentResult : SentimentResult R :=
  { articles_analyzed := 0, positive_count := 0, negative_count := 0
    neutral_count := 0, weighted_score := 0, signal := 0 }

/-- Recency weight of one headline (predictor.py 933-945): the age in hours
since `published`, defaulting to 168 when the publish time is unknown. -/
def articleWeight (now : R) (published : ℤ) : R :=
  let ageHours : R := if 0 < published then (now - (published : R)) / 3600 else 168
  if ageHours ≤ 24 then 1
  else if ageHours ≤ 72 then 7 / 10
  else if ageHours ≤ 168 then 4 / 10
  else 1 / 5

/-- `analyze_sentiment` (predictor.py 904-985); `now` is the oracle for
`datetime.now().timestamp()`. -/
def analyze_sentiment (now : R) (articles : List (Article R)) : SentimentResult R :=
  if articles.isEmpty then zeroSentimentResult
  else
    let weights := articles.map (fun a => articleWeight now a.published)
    let weightedScores := articles.map
      (fun a => a.sentiment_score * articleWeight now a.published)
    let totalWeight := weights.sum
    let weightedAvg := if 0 < totalWeight then weightedScores.sum / totalWeight else 0
    { articles_analyzed := articles.length
      positive_count := (articles.filter (fun a => a.sentiment = "positive")).length
      negative_count := (articles.filter (fun a => a.sentiment = "negative")).length
      neutral_count := (articles.filter
        (fun a => ¬(a.sentiment = "positive" ∨ a.sentiment = "negative"))).length
      weighted_score := roundTo 3 weightedAvg
      signal := roundTo 3 (clamp weightedAvg) }

end Analyzers

section Aggregator

variable {R : Type} [LinearOrderedField R] [FloorRing R]

/-- `StockPredictor.WEIGHTS` (predictor.py 10-25), in source order. -/
def WEIGHTS : List (String × R) :=
  [("ml_prediction", 14 / 100),
   ("rsi", 10 / 100),
   ("ma_trend", 10 / 100),
   ("macd", 9 / 100),
   ("historical_pattern", 9 / 100),
   ("sentiment", 8 / 100),
   ("bollinger", 7 / 100),
   ("stochastic", 7 / 100),
   ("relative_strength", 6 / 100),
   ("weekly_trend", 6 / 100),
   ("volume_trend", 6 / 100),
   ("atr_volatility", 4 / 100),
   ("weekday", 2 / 100),
   ("seasonal", 2 / 100)]

/-- One per-signal assignment: the `signals` dictionary built at
predictor.py 1000-1021. -/
structure Signals (R : Type) where
  ml_prediction : R
  rsi : R
  ma_trend : R
  macd : R
  historical_pattern : R
  sentiment : R
  bollinger : R
  stochastic : R
  relative_strength : R
  weekly_trend : R
  volume_trend : R
  atr_volatility : R
  weekday : R
  seasonal : R

/-- The `signals` dictionary in its insertion order (predictor.py
1000-1015); the `weekly_trend` entry keeps its position across the
reassignment of lines 1017-1021. -/
def signalsAList (s : Signals R) : List (String × R) :=
  [("ml_prediction", s.ml_prediction),
   ("rsi", s.rsi),
   ("ma_trend", s.ma_trend),
   ("macd", s.macd),
   ("historical_pattern", s.historical_pattern),
   ("sentiment", s.sentiment),
   ("bollinger", s.bollinger),
   ("stochastic", s.stochastic),
   ("relative_strength", s.relative_strength),
   ("weekly_trend", s.weekly_trend),
   ("volume_trend", s.volume_trend),
   ("atr_volatility", s.atr_volatility),
   ("weekday", s.weekday),
   ("seasonal", s.seasonal)]

/-- `self.WEIGHTS.get(key, 0)` (predictor.py 1039). -/
def lookupWeight (key : String) : R := (((WEIGHTS (R := R))).lookup key).getD 0

/-- Lines 1023-1027: `sum(signals[key] * self.WEIGHTS[key] for key in
self.WEIGHTS)`, clamped and rounded to 3 decimals.  The dictionary lookup
`signals[key]` is total here; the key-coverage fact is proved separately. -/
def combinedScoreOf (s : Signals R) : R :=
  roundTo 3 (clamp
    (((WEIGHTS (R := R)).map
      (fun kv => (((signalsAList s).lookup kv.1).getD 0) * kv.2)).sum))

/-- Lines 1029-1034. -/
def recommendationOf (score : R) : String :=
  if 1 / 4 < score then "Buy"
  else if score < -(1 / 4) then "Sell"
  else "Hold"

/-- `weighted_agreement` accumulation of predictor.py 1036-1049. -/
def weightedAgreement (s : Signals R) (combined : R) : R :=
  ((signalsAList s).map (fun kv =>
    let w : R := lookupWeight kv.1
    if 0 < combined then (if 0 < kv.2 then w * min 1 |kv.2| else 0)
    else if combined < 0 then (if kv.2 < 0 then w * min 1 |kv.2| else 0)
    else 0)).sum

/-- `weighted_opposition` accumulation of predictor.py 1036-1049. -/
def weightedOpposition (s : Signals R) (combined : R) : R :=
  ((signalsAList s).map (fun kv =>
    let w : R := lookupWeight kv.1
    if 0 < combined then (if kv.2 < -(1 / 5) ∧ ¬0 < kv.2 then w * min 1 |kv.2| else 0)
    else if combined < 0 then (if 1 / 5 < kv.2 ∧ ¬kv.2 < 0 then w * min 1 |kv.2| else 0)
    else 0)).sum

/-- `np.var` (population variance) of the signal values, then
`variance_penalty = min(0.15, signal_variance * 0.3)` (predictor.py
1051-1053). -/
def variancePenalty (s : Signals R) : R :=
  let vals := (signalsAList s).map (fun kv => kv.2)
  let mu := mean vals
  let signalVariance := mean (vals.map (fun v => (v - mu) ^ 2))
  min (3 / 20) (signalVariance * (3 / 10))

/-- Lines 1055-1056: `raw_confidence` and the clamped, rounded
`confidence`. -/
def confidenceFrom (score agr opp vp : R) : R :=
  roundTo 1 (min 95 (max 15 ((|score| * (1 / 2 + agr) - opp * (1 / 2) - vp) * 100 + 20)))

/-- The analyst-target dictionary returned by `StockData.get_analyst_targets`
(stock_data.py 204-228).  Its guard discards falsy `target_mean`,
`current_price` and zero analyst counts, but `targetLowPrice` /
`targetHighPrice` / `targetMedianPrice` may be absent (`none`). -/
structure ProviderTargets (R : Type) where
  current_price : R
  target_low : Option R
  target_high : Option R
  target_mean : R
  target_median : Option R
  num_analysts : ℕ

/-- One row of the projection table (predictor.py 1295-1307). -/
structure Projection (R : Type) where
  period : String
  low : R
  mean : R
  high : R
  upside_pct : R

/-- `StockPredictor.get_analyst_targets`'s successful result. -/
structure AnalystTargets (R : Type) where
  current_price : R
  target_low : R
  target_high : R
  target_mean : R
  target_median : Option R
  num_analysts : ℕ
  projections : List (Projection R)
  upside_pct : R

/-- The period table of predictor.py 1287-1293. -/
def projectionPeriods : List (String × R) :=
  [("1 Day", 1 / 252), ("1 Week", 1 / 52), ("1 Month", 1 / 12),
   ("1 Year", 1), ("3 Years", 3)]

/-- `StockPredictor.get_analyst_targets` (predictor.py 1271-1318).  This
method has no `try`; `target_low - current` / `target_high - current`
raise `TypeError` when the provider omitted those prices, and the
projection loop divides by `current`, raising `ZeroDivisionError` when it
is zero (the provider's own guard makes the latter unreachable). -/
def get_analyst_targets (t : Option (ProviderTargets R)) :
    Except String (Option (AnalystTargets R)) :=
  match t with
  | none => Except.ok none
  | some pt =>
    match pt.target_low, pt.target_high with
    | some lo, some hi =>
      if pt.current_price = 0 then Except.error "ZeroDivisionError"
      else
        let current := pt.current_price
        let annualChange := pt.target_mean - current
        let lowChange := lo - current
        let highChange := hi - current
        let projections := projectionPeriods.map (fun p =>
          let projMean := roundTo 2 (current + annualChange * p.2)
          { period := p.1
            low := roundTo 2 (current + lowChange * p.2)
            mean := projMean
            high := roundTo 2 (current + highChange * p.2)
            upside_pct := roundTo 1 ((projMean - current) / current * 100) })
        Except.ok (some
          { current_price := current
            target_low := lo
            target_high := hi
            target_mean := pt.target_mean
            target_median := pt.target_median
            num_analysts := pt.num_analysts
            projections := projections
            upside_pct := roundTo 1 ((pt.target_mean - current) / current * 100) })
    | _, _ =>
      -- unsupported operand type for None - float
      Except.error "TypeError"

/-- Everything `get_prediction` consumes: the provider snapshots and the
oracles of the individual analyzers. -/
structure Env (R : Type) where
  hist2y : Option (List (Bar R))
  hist5y : Option (List R)
  spy : Option (List R)
  news : List (Article R)
  now : R
  targets : Option (ProviderTargets R)
  weekdayPct : R
  seasonalMonthPct : R
  seasonalYtd : R
  seasonalLastYtd : R
  seasonalWeeklyReturns : List R
  mlCleanLen : ℕ
  mlLatestNull : Bool
  mlFoldAcc : ℕ → R
  mlProb : R

/-- The close column of the shared 2-year history. -/
def closes2y (env : Env R) : Option (List R) :=
  env.hist2y.map (fun bars => bars.map (fun b => b.close))

/-- The derived `weekly_trend` signal (predictor.py 1017-1021). -/
def derivedWeeklySignal (wt : WeeklyTrend R) : R :=
  if wt.direction = "up" then min 1 (3 / 10 + (wt.streak : R) * (15 / 100))
  else if wt.direction = "down" then
    max (-1) (-(3 / 10) - (wt.streak : R) * (15 / 100))
  else 0

/-- The `Prediction` record (string presentation fields `signal_breakdown`
labels, `summary` and `generated_at` elided; the breakdown's numeric
content is the `signals` field). -/
structure Prediction (R : Type) where
  recommendation : String
  confidence : R
  combined_score : R
  signals : Signals R
  weekday_analysis : WeekdayResult R
  seasonal_analysis : SeasonalResult R
  technical_analysis : TechnicalResult R
  sentiment_analysis : SentimentResult R
  historical_analysis : HistoricalResult R
  ml_analysis : MLResult R
  analyst_targets : Option (AnalystTargets R)

/-- The body of `get_prediction` (predictor.py 987-1187) up to and
excluding the `get_analyst_targets` call: runs every analyzer, derives the
`weekly_trend` signal, combines, thresholds and scores confidence.  Total:
every analyzer catches its own exceptions. -/
def buildPrediction (sqrtFn : R → R) (env : Env R)
    (targetsResult : Option (AnalystTargets R)) : Prediction R :=
  let weekday := analyze_weekday env.hist2y env.weekdayPct
  let seasonal := analyze_seasonal env.hist5y env.seasonalMonthPct
    env.seasonalYtd env.seasonalLastYtd env.seasonalWeeklyReturns
  let technical := analyze_technical (closes2y env)
  let sentiment := analyze_sentiment env.now env.news
  let bollinger := analyze_bollinger sqrtFn (closes2y env)
  let volumeTrend := analyze_volume_trend env.hist2y
  let atr := analyze_atr env.hist2y
  let historical := analyze_historical_pattern (closes2y env)
  let mlResult := analyze_ml env.hist2y env.mlCleanLen env.mlLatestNull
    env.mlFoldAcc env.mlProb
  let stochastic := analyze_stochastic env.hist2y
  let relStrength := analyze_relative_strength (closes2y env) env.spy
  let weeklySignal : R := derivedWeeklySignal seasonal.weekly_trend
  let s : Signals R :=
    { ml_prediction := mlResult.signal
      rsi := technical.rsi.signal
      ma_trend := technical.ma_trend.signal
      macd := technical.macd.signal
      historical_pattern := historical.signal
      sentiment := sentiment.signal
      bollinger := bollinger.signal
      stochastic := stochastic.signal
      relative_strength := relStrength.signal
      weekly_trend := weeklySignal
      volume_trend := volumeTrend.signal
      atr_volatility := atr.signal
      weekday := weekday.signal
      seasonal := seasonal.signal }
  let combined := combinedScoreOf s
  { recommendation := recommendationOf combined
    confidence := confidenceFrom combined (weightedAgreement s combined)
      (weightedOpposition s combined) (variancePenalty s)
    combined_score := combined
    signals := s
    weekday_analysis := weekday
    seasonal_analysis := seasonal
    technical_analysis := technical
    sentiment_analysis := sentiment
    historical_analysis := historical
    ml_analysis := mlResult
    analyst_targets := targetsResult }

/-- `get_prediction` (predictor.py 987-1187): the only statement outside
every analyzer's `try` is the `get_analyst_targets()` call, whose
exceptions therefore propagate. -/
def get_prediction (sqrtFn : R → R) (env : Env R) : Except String (Prediction R) :=
  (get_analyst_targets env.targets).map (fun tr => buildPrediction sqrtFn env tr)

end Aggregator

section SpecSide

variable {R : Type} [LinearOrderedField R] [FloorRing R]

/-- Spec-side reading of claim C2: `combined_score = Σ(signal_i × weight_i)`
over the weight table, clamped to `[-1, 1]` — with no rounding step. -/
def specCombinedScore (s : Signals R) : R :=
  clamp (((WEIGHTS (R := R)).map
    (fun kv => (((signalsAList s).lookup kv.1).getD 0) * kv.2)).sum)

/-- Spec-side reading of claim C7's formula: signal `(P(up) − 0.5) × 2`
multiplied by `max(0.3, clamp((avg_fold_accuracy − 0.5) × 4, 0, 1))` — with
no rounding step. -/
def specMlSignal (p avg : R) : R :=
  (p - 1 / 2) * 2 * max (3 / 10) (max 0 (min 1 ((avg - 1 / 2) * 4)))

/-- Spec-side recency weight of claim C8: `1.0` if age ≤ 24h, `0.7` if
≤ 72h, `0.4` if ≤ 168h, `0.2` otherwise, and the 168h-cohort weight `0.4`
for an unknown publish time. -/
def specRecencyWeight (now : R) (published : ℤ) : R :=
  if published ≤ 0 then 4 / 10
  else
    let age := (now - (published : R)) / 3600
    if age ≤ 24 then 1
    else if age ≤ 72 then 7 / 10
    else if age ≤ 168 then 4 / 10
    else 1 / 5

/-- Spec-side reading of claim C8's aggregate: the weight-normalized
average of per-headline scores, clamped to `[-1, 1]` — with no rounding. -/
def specSentimentSignal (now : R) (articles : List (Article R)) : R :=
  clamp ((articles.map
      (fun a => a.sentiment_score * specRecencyWeight now a.published)).sum /
    (articles.map (fun a => specRecencyWeight now a.published)).sum)

end SpecSide

section BoundLemmas

variable {R : Type} [LinearOrderedField R] [FloorRing R]

theorem roundTo_mem (k : ℕ) {a b x : R} (ha : roundTo k a = a)
    (hb : roundTo k b = b) (h1 : a ≤ x) (h2 : x ≤ b) :
    a ≤ roundTo k x ∧ roundTo k x ≤ b :=
  ⟨ha ▸ roundTo_mono k h1, hb ▸ roundTo_mono k h2⟩

theorem roundTo_zero (k : ℕ) : roundTo k (0 : R) = 0 := by
  apply roundTo_of_mul_eq_int k 0 0
  push_cast
  ring

/-- Membership bound of `[-1, 1]` on a signal value. -/
def inSignalRange (x : R) : Prop := -1 ≤ x ∧ x ≤ 1

theorem inSignalRange_roundTo_clamp (k : ℕ) (x : R) :
    inSignalRange (roundTo k (clamp x)) := roundTo_clamp_mem k x

theorem inSignalRange_zero : inSignalRange (0 : R) := by
  constructor <;> norm_num

theorem inSignalRange_one : inSignalRange (1 : R) := by
  constructor <;> norm_num

/-- A clamped-and-rounded signal times a factor in `[0, 1]`, rounded again,
stays in `[-1, 1]` (the ML accuracy scaling of predictor.py 867-868). -/
theorem ml_adjusted_mem {x m : R} (hx : inSignalRange x) (hm0 : 0 ≤ m)
    (hm1 : m ≤ 1) : inSignalRange (roundTo 3 (x * m)) := by
  have hlow : -1 ≤ x * m := by
    have h1 : 0 ≤ (1 + x) * m := mul_nonneg (by linarith [hx.1]) hm0
    nlinarith
  have hhigh : x * m ≤ 1 := by
    have h1 : 0 ≤ (1 - x) * m := mul_nonneg (by linarith [hx.2]) hm0
    nlinarith
  constructor
  · have h := roundTo_mono (R := R) 3 hlow
    rwa [roundTo_neg_one] at h
  · have h := roundTo_mono (R := R) 3 hhigh
    rwa [roundTo_one] at h

theorem weekday_signal_mem (hist : Option (List (Bar R))) (pct : R) :
    inSignalRange (analyze_weekday hist pct).signal := by
  cases hist with
  | none => exact inSignalRange_zero
  | some h =>
    by_cases hl : h.length < 30
    · simp only [analyze_weekday, if_pos hl]
      exact inSignalRange_zero
    · simp only [analyze_weekday, if_neg hl]
      exact inSignalRange_roundTo_clamp 3 _

theorem seasonal_signal_mem (hist5 : Option (List R)) (mp yt ly : R)
    (wr : List R) : inSignalRange (analyze_seasonal hist5 mp yt ly wr).signal := by
  cases hist5 with
  | none => exact inSignalRange_zero
  | some h =>
    by_cases hl : h.length < 252
    · simp only [analyze_seasonal, if_pos hl]
      exact inSignalRange_zero
    · simp only [analyze_seasonal, if_neg hl]
      exact inSignalRange_roundTo_clamp 3 _

theorem rsi_signal_mem (closes : List R) :
    inSignalRange (rsiBlock closes).signal := by
  unfold rsiBlock
  split
  · split
    · exact inSignalRange_roundTo_clamp 3 _
    · split
      · exact inSignalRange_roundTo_clamp 3 _
      · exact inSignalRange_roundTo_clamp 3 _
  · exact inSignalRange_one

theorem macd_signal_mem (closes : List R) :
    inSignalRange (macdBlock closes).signal := by
  unfold macdBlock
  exact inSignalRange_roundTo_clamp 3 _

theorem ma_signal_mem (closes : List R) :
    inSignalRange (maBlock closes).signal := by
  unfold maBlock
  exact inSignalRange_roundTo_clamp 3 _

theorem technical_signals_mem (hist : Option (List R)) :
    inSignalRange (analyze_technical hist).rsi.signal ∧
    inSignalRange (analyze_technical hist).macd.signal ∧
    inSignalRange (analyze_technical hist).ma_trend.signal := by
  cases hist with
  | none =>
    exact ⟨inSignalRange_zero, inSignalRange_zero, inSignalRange_zero⟩
  | some closes =>
    by_cases hl : closes.length < 200
    · simp only [analyze_technical, if_pos hl]
      exact ⟨inSignalRange_zero, inSignalRange_zero, inSignalRange_zero⟩
    · simp only [analyze_technical, if_neg hl]
      exact ⟨rsi_signal_mem closes, macd_signal_mem closes, ma_signal_mem closes⟩

theorem bollinger_signal_mem (sqrtFn : R → R) (hist : Option (List R)) :
    inSignalRange (analyze_bollinger sqrtFn hist).signal := by
  cases hist with
  | none => exact inSignalRange_zero
  | some closes =>
    by_cases hl : closes.length < 20
    · simp only [analyze_bollinger, if_pos hl]
      exact inSignalRange_zero
    · simp only [analyze_bollinger, if_neg hl]
      unfold bollingerBody
      exact inSignalRange_roundTo_clamp 3 _

theorem volume_signal_mem (hist : Option (List (Bar R))) :
    inSignalRange (analyze_volume_trend hist).signal := by
  cases hist with
  | none => exact inSignalRange_zero
  | some bars =>
    by_cases hl : bars.length < 30
    · simp only [analyze_volume_trend, if_pos hl]
      exact inSignalRange_zero
    · simp only [analyze_volume_trend, if_neg hl]
      unfold volumeTrendBody
      split
      · exact inSignalRange_zero
      · unfold volumeTrendCore
        exact inSignalRange_roundTo_clamp 3 _

theorem atr_signal_mem (hist : Option (List (Bar R))) :
    inSignalRange (analyze_atr hist).signal := by
  cases hist with
  | none => exact inSignalRange_zero
  | some bars =>
    by_cases hl : bars.length < 30
    · simp only [analyze_atr, if_pos hl]
      exact inSignalRange_zero
    · simp only [analyze_atr, if_neg hl]
      exact inSignalRange_roundTo_clamp 3 _

theorem stochastic_signal_mem (hist : Option (List (Bar R))) :
    inSignalRange (analyze_stochastic hist).signal := by
  cases hist with
  | none => exact inSignalRange_zero
  | some bars =>
    by_cases hl : bars.length < 30
    · simp only [analyze_stochastic, if_pos hl]
      exact inSignalRange_zero
    · simp only [analyze_stochastic, if_neg hl]
      exact inSignalRange_roundTo_clamp 3 _

theorem relstrength_signal_mem (hist spy : Option (List R)) :
    inSignalRange (analyze_relative_strength hist spy).signal := by
  cases hist with
  | none => exact inSignalRange_zero
  | some closes =>
    by_cases hl : closes.length < 60
    · simp only [analyze_relative_strength, if_pos hl]
      exact inSignalRange_zero
    · cases spy with
      | none =>
        simp only [analyze_relative_strength, if_neg hl]
        exact inSignalRange_zero
      | some spyCloses =>
        by_cases hs : spyCloses.length < 60
        · simp only [analyze_relative_strength, if_neg hl, if_pos hs]
          exact inSignalRange_zero
        · simp only [analyze_relative_strength, if_neg hl, if_neg hs]
          exact inSignalRange_roundTo_clamp 3 _

theorem historical_signal_mem (hist : Option (List R)) :
    inSignalRange (analyze_historical_pattern hist).signal := by
  cases hist with
  | none => exact inSignalRange_zero
  | some closes =>
    by_cases hl : closes.length < 252
    · simp only [analyze_historical_pattern, if_pos hl]
      exact inSignalRange_zero
    · simp only [analyze_historical_pattern, if_neg hl]
      exact inSignalRange_roundTo_clamp 3 _

theorem ml_signal_mem (hist : Option (List (Bar R))) (cleanLen : ℕ)
    (latestNull : Bool) (foldAcc : ℕ → R) (p : R) :
    inSignalRange (analyze_ml hist cleanLen latestNull foldAcc p).signal := by
  cases hist with
  | none => exact inSignalRange_zero
  | some h =>
    by_cases h3 : h.length < 300
    · simp only [analyze_ml, if_pos h3]
      exact inSignalRange_zero
    · by_cases h2 : cleanLen < 200
      · simp only [analyze_ml, if_neg h3, if_pos h2]
        exact inSignalRange_zero
      · cases latestNull with
        | true =>
          simp only [analyze_ml, if_neg h3, if_neg h2, if_pos rfl]
          exact inSignalRange_zero
        | false =>
          simp only [analyze_ml, if_neg h3, if_neg h2, Bool.false_eq_true,
            if_false]
          apply ml_adjusted_mem
          · exact inSignalRange_roundTo_clamp 3 _
          · exact le_trans (by norm_num : (0 : R) ≤ 3 / 10) (le_max_left _ _)
          · apply max_le (by norm_num)
            exact max_le (by norm_num) (min_le_left _ _)

theorem sentiment_signal_mem (now : R) (articles : List (Article R)) :
    inSignalRange (analyze_sentiment now articles).signal := by
  by_cases he : articles.isEmpty
  · simp only [analyze_sentiment, if_pos he]
    exact inSignalRange_zero
  · simp only [analyze_sentiment, if_neg he]
    exact inSignalRange_roundTo_clamp 3 _

theorem derived_weekly_signal_mem (wt : WeeklyTrend R) :
    inSignalRange (derivedWeeklySignal wt) := by
  unfold derivedWeeklySignal
  have hc : (0 : R) ≤ (wt.streak : R) * (15 / 100) := by positivity
  split
  · constructor
    · exact le_min (by norm_num) (by linarith)
    · exact min_le_left _ _
  · split
    · constructor
      · exact le_max_left _ _
      · exact max_le (by norm_num) (by linarith)
    · exact inSignalRange_zero

theorem combined_score_mem (s : Signals R) : inSignalRange (combinedScoreOf s) := by
  unfold combinedScoreOf
  exact inSignalRange_roundTo_clamp 3 _

theorem confidence_mem (score agr opp vp : R) :
    15 ≤ confidenceFrom score agr opp vp ∧ confidenceFrom score agr opp vp ≤ 95 := by
  unfold confidenceFrom
  have h15 : roundTo 1 (15 : R) = 15 := by
    apply roundTo_of_mul_eq_int 1 15 150
    push_cast
    ring
  have h95 : roundTo 1 (95 : R) = 95 := by
    apply roundTo_of_mul_eq_int 1 95 950
    push_cast
    ring
  apply roundTo_mem 1 h15 h95
  · exact le_min (by norm_num) (le_max_left _ _)
  · exact min_le_left _ _

theorem build_prediction_mem (sqrtFn : R → R) (env : Env R)
    (t : Option (AnalystTargets R)) :
    inSignalRange (buildPrediction sqrtFn env t).signals.weekly_trend ∧
    inSignalRange (buildPrediction sqrtFn env t).combined_score ∧
    15 ≤ (buildPrediction sqrtFn env t).confidence ∧
    (buildPrediction sqrtFn env t).confidence ≤ 95 := by
  refine ⟨derived_weekly_signal_mem _, combined_score_mem _, ?_, ?_⟩
  · exact (confidence_mem _ _ _ _).1
  · exact (confidence_mem _ _ _ _).2

end BoundLemmas

section ClaimTheorems

/-- C1: Bounded-output invariant.  For every input price history and news
list (arbitrary series lengths, flat/monotonic/short series, the
internal NaN produced by a flat RSI window, arbitrary oracle values for
the library-computed statistics), every per-analyzer `signal` lies in
`[-1.0, 1.0]` — including the derived `weekly_trend` signal — and for
every input the `combined_score` of the record built by
`StockPredictor.get_prediction` lies in `[-1.0, 1.0]` while its
`confidence` lies in `[15.0, 95.0]`. -/
theorem c1_bounded_output_invariant :
    (∀ (hist : Option (List (Bar ℚ))) (pct : ℚ),
      inSignalRange (analyze_weekday hist pct).signal) ∧
    (∀ (hist5 : Option (List ℚ)) (mp yt ly : ℚ) (wr : List ℚ),
      inSignalRange (analyze_seasonal hist5 mp yt ly wr).signal) ∧
    (∀ hist : Option (List ℚ),
      inSignalRange (analyze_technical hist).rsi.signal ∧
      inSignalRange (analyze_technical hist).macd.signal ∧
      inSignalRange (analyze_technical hist).ma_trend.signal) ∧
    (∀ hist : Option (List ℝ),
      inSignalRange (analyze_bollinger Real.sqrt hist).signal) ∧
    (∀ hist : Option (List (Bar ℚ)),
      inSignalRange (analyze_volume_trend hist).signal) ∧
    (∀ hist : Option (List (Bar ℚ)), inSignalRange (analyze_atr hist).signal) ∧
    (∀ hist : Option (List (Bar ℚ)),
      inSignalRange (analyze_stochastic hist).signal) ∧
    (∀ hist spy : Option (List ℚ),
      inSignalRange (analyze_relative_strength hist spy).signal) ∧
    (∀ hist : Option (List ℚ),
      inSignalRange (analyze_historical_pattern hist).signal) ∧
    (∀ (hist : Option (List (Bar ℚ))) (cleanLen : ℕ) (latestNull : Bool)
      (foldAcc : ℕ → ℚ) (p : ℚ),
      inSignalRange (analyze_ml hist cleanLen latestNull foldAcc p).signal) ∧
    (∀ (now : ℚ) (articles : List (Article ℚ)),
      inSignalRange (analyze_sentiment now articles).signal) ∧
    (∀ (sqrtFn : ℚ → ℚ) (env : Env ℚ) (t : Option (AnalystTargets ℚ)),
      inSignalRange (buildPrediction sqrtFn env t).signals.weekly_trend ∧
      inSignalRange (buildPrediction sqrtFn env t).combined_score ∧
      15 ≤ (buildPrediction sqrtFn env t).confidence ∧
      (buildPrediction sqrtFn env t).confidence ≤ 95) :=
  ⟨weekday_signal_mem, seasonal_signal_mem, technical_signals_mem,
   bollinger_signal_mem Real.sqrt, volume_signal_mem, atr_signal_mem,
   stochastic_signal_mem, relstrength_signal_mem, historical_signal_mem,
   ml_signal_mem, sentiment_signal_mem, build_prediction_mem⟩

/-- C3: The weight table is a valid configuration: its key set is exactly
the closed 14-name signal set used by `get_prediction`'s `signals`
dictionary, the values sum to exactly 1 (hence within tolerance `1e-6`),
and every weight is nonnegative. -/
theorem c3_weight_table_valid :
    ((WEIGHTS (R := ℚ)).map Prod.fst =
      ["ml_prediction", "rsi", "ma_trend", "macd", "historical_pattern",
       "sentiment", "bollinger", "stochastic", "relative_strength",
       "weekly_trend", "volume_trend", "atr_volatility", "weekday",
       "seasonal"]) ∧
    (∀ s : Signals ℚ,
      (signalsAList s).map Prod.fst = (WEIGHTS (R := ℚ)).map Prod.fst) ∧
    ((WEIGHTS (R := ℚ)).map Prod.snd).sum = 1 ∧
    |((WEIGHTS (R := ℚ)).map Prod.snd).sum - 1| ≤ 1 / 1000000 ∧
    List.Forall (fun w => 0 ≤ w) ((WEIGHTS (R := ℚ)).map Prod.snd) := by
  have hsum : ((WEIGHTS (R := ℚ)).map Prod.snd).sum = 1 := by
    norm_num [WEIGHTS]
  refine ⟨rfl, fun s => rfl, hsum, ?_, ?_⟩
  · rw [hsum]
    norm_num
  · norm_num [WEIGHTS, List.Forall]

/-- The all-zero signal assignment of the spec's scenario. -/
def zeroSignals : Signals ℚ :=
  { ml_prediction := 0, rsi := 0, ma_trend := 0, macd := 0
    historical_pattern := 0, sentiment := 0, bollinger := 0, stochastic := 0
    relative_strength := 0, weekly_trend := 0, volume_trend := 0
    atr_volatility := 0, weekday := 0, seasonal := 0 }

/-- An assignment whose weighted sum `0.001 × 0.10 = 0.0001` is not
representable in 3 decimals. -/
def c2Signals : Signals ℚ :=
  { ml_prediction := 0, rsi := 1 / 1000, ma_trend := 0, macd := 0
    historical_pattern := 0, sentiment := 0, bollinger := 0, stochastic := 0
    relative_strength := 0, weekly_trend := 0, volume_trend := 0
    atr_volatility := 0, weekday := 0, seasonal := 0 }

theorem recommendation_iff (x : ℚ) :
    (recommendationOf x = "Buy" ↔ 1 / 4 < x) ∧
    (recommendationOf x = "Sell" ↔ x < -(1 / 4)) ∧
    (recommendationOf x = "Hold" ↔ -(1 / 4) ≤ x ∧ x ≤ 1 / 4) := by
  unfold recommendationOf
  split_ifs with h1 h2
  · exact ⟨iff_of_true rfl h1, iff_of_false (by simp) (by linarith),
      iff_of_false (by simp) (by rintro ⟨h3, h4⟩; linarith)⟩
  · exact ⟨iff_of_false (by simp) h1, iff_of_true rfl h2,
      iff_of_false (by simp) (by rintro ⟨h3, h4⟩; linarith)⟩
  · exact ⟨iff_of_false (by simp) h1, iff_of_false (by simp) h2,
      iff_of_true rfl ⟨by linarith [not_lt.mp h2], by linarith [not_lt.mp h1]⟩⟩

/-- C2 counterexample: with the `rsi` signal at `0.001` and all others at
`0.0`, the weighted sum is `0.0001`, but `combined_score` is rounded to 3
decimals and comes out `0.0`, so it does not equal the clamped weighted sum
as the claim states. -/
theorem c2_counterexample :
    combinedScoreOf c2Signals ≠ specCombinedScore c2Signals := by
  have hsum : ((WEIGHTS (R := ℚ)).map
      (fun kv => (((signalsAList c2Signals).lookup kv.1).getD 0) * kv.2)).sum
      = 1 / 10000 := by
    simp [WEIGHTS, signalsAList, c2Signals, List.lookup]
    try norm_num
  have hcl : clamp ((1 : ℚ) / 10000) = 1 / 10000 := by
    unfold clamp
    norm_num
  have h1 : combinedScoreOf c2Signals = 0 := by
    unfold combinedScoreOf
    rw [hsum, hcl]
    unfold roundTo rhe
    norm_num
  have h2 : specCombinedScore c2Signals = 1 / 10000 := by
    unfold specCombinedScore
    rw [hsum, hcl]
  rw [h1, h2]
  norm_num

/-- C2 (amended): `combined_score` equals the weighted sum over the
14-entry weight table clamped to `[-1, 1]` *and rounded to 3 decimals
(half-even)*; the recommendation is `Buy` exactly when the score exceeds
`0.25`, `Sell` exactly when it is below `-0.25`, and `Hold` exactly on
`[-0.25, 0.25]`; with every signal at `0.0` the score is `0.0` and the
recommendation is `Hold`. -/
theorem c2_combined_score_amended :
    (∀ s : Signals ℚ, combinedScoreOf s = roundTo 3 (specCombinedScore s)) ∧
    (∀ x : ℚ,
      (recommendationOf x = "Buy" ↔ 1 / 4 < x) ∧
      (recommendationOf x = "Sell" ↔ x < -(1 / 4)) ∧
      (recommendationOf x = "Hold" ↔ -(1 / 4) ≤ x ∧ x ≤ 1 / 4)) ∧
    combinedScoreOf zeroSignals = 0 ∧
    recommendationOf (combinedScoreOf zeroSignals) = "Hold" := by
  have h0 : combinedScoreOf zeroSignals = 0 := by
    have hsum : ((WEIGHTS (R := ℚ)).map
        (fun kv => (((signalsAList zeroSignals).lookup kv.1).getD 0) * kv.2)).sum
        = 0 := by
      simp [WEIGHTS, signalsAList, zeroSignals, List.lookup]
    have hcl : clamp ((0 : ℚ)) = 0 := by
      unfold clamp
      norm_num
    unfold combinedScoreOf
    rw [hsum, hcl, roundTo_zero]
  refine ⟨fun s => rfl, recommendation_iff, h0, ?_⟩
  rw [h0]
  unfold recommendationOf
  norm_num

/-- C6: confidence is monotone in the weighted-agreement term: at fixed
combined score, opposition and variance penalty, a strictly larger
agreement never yields a strictly smaller confidence. -/
theorem c6_confidence_monotone_in_agreement (score opp vp a1 a2 : ℚ)
    (h : a1 < a2) :
    confidenceFrom score a1 opp vp ≤ confidenceFrom score a2 opp vp := by
  unfold confidenceFrom
  apply roundTo_mono
  have habs : (0 : ℚ) ≤ |score| := abs_nonneg score
  have hle : (|score| * (1 / 2 + a1) - opp * (1 / 2) - vp) * 100 + 20 ≤
      (|score| * (1 / 2 + a2) - opp * (1 / 2) - vp) * 100 + 20 := by nlinarith
  exact min_le_min (le_refl _) (max_le_max (le_refl _) hle)

/-- C6 witness at a concrete input. -/
theorem c6_confidence_monotone_witness :
    (0 : ℚ) < 1 / 10 ∧
    confidenceFrom ((1 : ℚ) / 2) 0 0 0 ≤ confidenceFrom ((1 : ℚ) / 2) (1 / 10) 0 0 :=
  ⟨by norm_num,
   c6_confidence_monotone_in_agreement ((1 : ℚ) / 2) 0 0 0 (1 / 10) (by norm_num)⟩

/-- A 300-row history (only its length matters to `analyze_ml`). -/
def c7Bars : List (Bar ℚ) :=
  List.replicate 300 { close := 100, high := 101, low := 99, volume := 1000 }

/-- A history too short for the ML analyzer. -/
def c7SmallBars : List (Bar ℚ) :=
  List.replicate 10 { close := 100, high := 101, low := 99, volume := 1000 }

theorem c7_avg_one : mlAvgAccuracy 200 (fun _ => (1 : ℚ)) = 1 := by
  have h : mlFoldAccuracies 200 (fun _ => (1 : ℚ)) = [1, 1, 1] := by
    simp [mlFoldAccuracies, List.range_succ, List.filterMap_cons]
  unfold mlAvgAccuracy
  rw [h]
  norm_num

/-- C7 counterexample: at `P(up) = 0.5001` with perfect fold accuracy the
claimed signal is `0.0002 × 1 = 0.0002`, but the code rounds the raw signal
to 3 decimals first, giving `0.0`, so the returned signal does not equal
the claim's product. -/
theorem c7_counterexample :
    (analyze_ml (some c7Bars) 200 false (fun _ => 1) (5001 / 10000)).signal ≠
      specMlSignal (5001 / 10000) (mlAvgAccuracy 200 (fun _ => 1)) := by
  have hraw : roundTo 3 (clamp ((5001 / 10000 - 1 / 2) * 2 : ℚ)) = 0 := by
    have h1 : ((5001 / 10000 - 1 / 2) * 2 : ℚ) = 1 / 5000 := by norm_num
    rw [h1]
    have h2 : clamp ((1 : ℚ) / 5000) = 1 / 5000 := by
      unfold clamp
      norm_num
    rw [h2]
    unfold roundTo rhe
    norm_num
  have hlhs : (analyze_ml (some c7Bars) 200 false (fun _ => 1)
      (5001 / 10000)).signal = 0 := by
    simp only [analyze_ml]
    rw [show c7Bars.length = 300 from by unfold c7Bars; rw [List.length_replicate]]
    rw [if_neg (by norm_num), if_neg (by norm_num)]
    simp only [Bool.false_eq_true, if_false]
    rw [hraw, zero_mul, roundTo_zero]
  have hrhs : specMlSignal ((5001 : ℚ) / 10000) (mlAvgAccuracy 200 (fun _ => 1))
      = 1 / 5000 := by
    rw [c7_avg_one]
    unfold specMlSignal
    norm_num
  rw [hlhs, hrhs]
  norm_num

/-- C7 (amended): `analyze_ml` returns the neutral result without raising
whenever the history is missing, shorter than 300 rows, or fewer than 200
clean feature rows remain; otherwise (with a complete latest feature row)
the returned signal is the raw signal `(P(up) − 0.5) × 2` *rounded to 3
decimals*, multiplied by `max(0.3, clamp((avg_fold_accuracy − 0.5) × 4,
0, 1))`, the product again *rounded to 3 decimals*. -/
theorem c7_ml_signal_amended :
    (∀ (cleanLen : ℕ) (latestNull : Bool) (foldAcc : ℕ → ℚ) (p : ℚ),
      analyze_ml none cleanLen latestNull foldAcc p = emptyMLResult) ∧
    (∀ (hist : List (Bar ℚ)) (cleanLen : ℕ) (latestNull : Bool)
      (foldAcc : ℕ → ℚ) (p : ℚ), hist.length < 300 ∨ cleanLen < 200 →
      analyze_ml (some hist) cleanLen latestNull foldAcc p = emptyMLResult) ∧
    (∀ (hist : List (Bar ℚ)) (cleanLen : ℕ) (foldAcc : ℕ → ℚ) (p : ℚ),
      300 ≤ hist.length → 200 ≤ cleanLen →
      (analyze_ml (some hist) cleanLen false foldAcc p).signal =
        roundTo 3 (roundTo 3 (clamp ((p - 1 / 2) * 2)) *
          max (3 / 10)
            (max 0 (min 1 ((mlAvgAccuracy cleanLen foldAcc - 1 / 2) * 4))))) := by
  refine ⟨fun _ _ _ _ => rfl, ?_, ?_⟩
  · intro hist cleanLen latestNull foldAcc p hcase
    simp only [analyze_ml]
    by_cases hA : hist.length < 300
    · rw [if_pos hA]
    · rcases hcase with h1 | h2
      · exact absurd h1 hA
      · rw [if_neg hA, if_pos h2]
  · intro hist cleanLen foldAcc p h3 h2
    simp only [analyze_ml]
    rw [if_neg (by omega), if_neg (by omega)]
    rfl

/-- C7 witness: the amended statement applied at concrete inputs. -/
theorem c7_ml_signal_amended_witness :
    ((c7SmallBars.length < 300 ∨ (100 : ℕ) < 200) ∧
      analyze_ml (some c7SmallBars) 100 true (fun _ => (1 : ℚ)) (3 / 4) =
        emptyMLResult) ∧
    (300 ≤ c7Bars.length ∧ (200 : ℕ) ≤ 200 ∧
      (analyze_ml (some c7Bars) 200 false (fun _ => (1 : ℚ)) (3 / 4)).signal =
        roundTo 3 (roundTo 3 (clamp ((3 / 4 - 1 / 2) * 2)) *
          max (3 / 10)
            (max 0 (min 1 ((mlAvgAccuracy 200 (fun _ => (1 : ℚ)) - 1 / 2) * 4))))) :=
  ⟨⟨Or.inl (by unfold c7SmallBars; rw [List.length_replicate]; norm_num),
    c7_ml_signal_amended.2.1 c7SmallBars 100 true (fun _ => 1) (3 / 4)
      (Or.inl (by unfold c7SmallBars; rw [List.length_replicate]; norm_num))⟩,
   ⟨by unfold c7Bars; rw [List.length_replicate], by norm_num,
    c7_ml_signal_amended.2.2 c7Bars 200 (fun _ => 1) (3 / 4)
      (by unfold c7Bars; rw [List.length_replicate]) (by norm_num)⟩⟩

/-- `articleWeight` implements the spec's recency schedule exactly. -/
theorem articleWeight_pos (now : ℚ) (pub : ℤ) : 0 < articleWeight now pub := by
  unfold articleWeight
  dsimp only
  split_ifs <;> norm_num

theorem articleWeight_eq_spec (now : ℚ) (pub : ℤ) :
    articleWeight now pub = specRecencyWeight now pub := by
  unfold articleWeight specRecencyWeight
  by_cases hp : 0 < pub
  · simp only [if_pos hp, if_neg (show ¬pub ≤ 0 by omega)]
  · simp only [if_neg hp, if_pos (show pub ≤ 0 by omega)]
    norm_num

/-- The single near-neutral headline of the C8 counterexample. -/
def c8Articles : List (Article ℚ) :=
  [{ sentiment := "neutral", sentiment_score := 1 / 10000, published := 0 }]

/-- C8 counterexample: one headline with score `0.0001` and unknown publish
time has weight-normalized average `0.0001`, but the returned signal is the
3-decimal rounding `0.0`, so it does not equal the clamped average as the
claim states. -/
theorem c8_counterexample :
    (analyze_sentiment (0 : ℚ) c8Articles).signal ≠
      specSentimentSignal 0 c8Articles := by
  have hw : articleWeight (0 : ℚ) 0 = 4 / 10 := by
    unfold articleWeight
    norm_num
  have hlhs : (analyze_sentiment (0 : ℚ) c8Articles).signal = 0 := by
    unfold analyze_sentiment
    rw [if_neg (by simp [c8Articles])]
    simp only [c8Articles, List.map_cons, List.map_nil, List.sum_cons,
      List.sum_nil, hw]
    rw [if_pos (by norm_num)]
    have h1 : ((1 : ℚ) / 10000 * (4 / 10) + 0) / (4 / 10 + 0) = 1 / 10000 := by
      norm_num
    rw [h1]
    have h2 : clamp ((1 : ℚ) / 10000) = 1 / 10000 := by
      unfold clamp
      norm_num
    rw [h2]
    unfold roundTo rhe
    norm_num
  have hrhs : specSentimentSignal (0 : ℚ) c8Articles = 1 / 10000 := by
    unfold specSentimentSignal specRecencyWeight
    simp only [c8Articles, List.map_cons, List.map_nil, List.sum_cons,
      List.sum_nil]
    norm_num [clamp]
  rw [hlhs, hrhs]
  norm_num

/-- C8 (amended): each headline is weighted by the stated recency schedule
(unknown publish time → the 168h-cohort weight 0.4); an empty news list
returns the zero result (signal `0.0`, `articles_analyzed = 0`) without
raising; and for a nonempty list the returned signal is the weight-
normalized average of per-headline scores clamped to `[-1, 1]` *and then
rounded to 3 decimals (half-even)*. -/
theorem c8_sentiment_amended :
    (∀ now : ℚ, analyze_sentiment now ([] : List (Article ℚ)) =
      zeroSentimentResult) ∧
    (∀ (now : ℚ) (pub : ℤ), articleWeight now pub = specRecencyWeight now pub) ∧
    (∀ (now : ℚ) (articles : List (Article ℚ)), articles ≠ [] →
      (analyze_sentiment now articles).signal =
        roundTo 3 (specSentimentSignal now articles)) := by
  refine ⟨fun _ => rfl, articleWeight_eq_spec, ?_⟩
  intro now articles hne
  unfold analyze_sentiment
  rw [if_neg (by simpa [List.isEmpty_iff] using hne)]
  have hwpos : 0 < (articles.map (fun a => articleWeight now a.published)).sum := by
    apply List.sum_pos
    · intro x hx
      obtain ⟨a, _, rfl⟩ := List.mem_map.mp hx
      exact articleWeight_pos now a.published
    · simpa using hne
  simp only
  rw [if_pos hwpos]
  unfold specSentimentSignal
  have hfun : (fun a : Article ℚ => specRecencyWeight now a.published) =
      (fun a : Article ℚ => articleWeight now a.published) := by
    funext a
    exact (articleWeight_eq_spec now a.published).symm
  have hfun2 : (fun a : Article ℚ =>
      a.sentiment_score * specRecencyWeight now a.published) =
      (fun a : Article ℚ => a.sentiment_score * articleWeight now a.published) := by
    funext a
    rw [articleWeight_eq_spec]
  rw [hfun, hfun2]

/-- C8 witness: the amended statement applied at a concrete nonempty news
list. -/
theorem c8_sentiment_amended_witness :
    c8Articles ≠ [] ∧
    (analyze_sentiment (0 : ℚ) c8Articles).signal =
      roundTo 3 (specSentimentSignal 0 c8Articles) :=
  ⟨by simp [c8Articles],
   c8_sentiment_amended.2.2 0 c8Articles (by simp [c8Articles])⟩

theorem diffs_drop (l : List ℚ) (k : ℕ) : diffs (l.drop k) = (diffs l).drop k := by
  unfold diffs
  rw [List.drop_zipWith, List.tail_drop]
  congr 1
  rw [← List.drop_one, List.drop_drop, Nat.add_comm]

theorem diffs_length (l : List ℚ) : (diffs l).length = l.length - 1 := by
  simp [diffs]

theorem lastN_diffs (l : List ℚ) : lastN 14 (diffs l) = diffs (lastN 15 l) := by
  unfold lastN
  rw [diffs_drop]
  congr 1
  rw [diffs_length]
  omega

theorem gains_lastN (l : List ℚ) : lastN 14 (gains l) = gains (lastN 15 l) := by
  unfold gains
  rw [← lastN_diffs]
  unfold lastN
  rw [List.map_drop, List.length_map]

theorem losses_lastN (l : List ℚ) : lastN 14 (losses l) = losses (lastN 15 l) := by
  unfold losses
  rw [← lastN_diffs]
  unfold lastN
  rw [List.map_drop, List.length_map]

/-- C9: for every price history of at least 200 closes whose computed
RSI(14) value is 25, `analyze_technical` reports `Oversold` with
`rsi_signal = round(0.5 + (30 - 25)/60, 3) = 0.583`. -/
theorem c9_rsi_oversold (closes : List ℚ) (hlen : 200 ≤ closes.length)
    (hrsi : rsi14 closes = some 25) :
    (analyze_technical (some closes)).rsi.interpretation = "Oversold" ∧
    (analyze_technical (some closes)).rsi.value = some 25 ∧
    (analyze_technical (some closes)).rsi.signal = 583 / 1000 := by
  have htech : analyze_technical (some closes) =
      { rsi := rsiBlock closes, macd := macdBlock closes
        ma_trend := maBlock closes } := by
    simp only [analyze_technical]
    rw [if_neg (by omega)]
  rw [htech]
  have hblock : rsiBlock closes =
      { value := some 25, interpretation := "Oversold"
        signal := roundTo 3 (clamp (1 / 2 + ((30 : ℚ) - 25) / 60)) } := by
    unfold rsiBlock
    rw [hrsi]
    dsimp only
    rw [if_pos (by norm_num : (25 : ℚ) < 30)]
  rw [hblock]
  refine ⟨rfl, rfl, ?_⟩
  have h1 : (1 / 2 + ((30 : ℚ) - 25) / 60) = 7 / 12 := by norm_num
  rw [h1]
  have h2 : clamp ((7 : ℚ) / 12) = 7 / 12 := by
    unfold clamp
    norm_num
  rw [h2]
  unfold roundTo rhe
  norm_num

/-- The first 185 rows of the C9 witness series (a flat warm-up). -/
def c9Prefix : List ℚ := List.replicate 185 100

/-- The last 15 rows of the C9 witness series: one +1 day, three −1 days
and a flat tail, so the 14-day average gain is `1/14` and the average loss
`3/14`, giving RSI = 25. -/
def c9Suffix : List ℚ :=
  [100, 101, 100, 99, 98, 98, 98, 98, 98, 98, 98, 98, 98, 98, 98]

/-- The 200-row C9 witness series. -/
def c9Closes : List ℚ := c9Prefix ++ c9Suffix

theorem c9_length : c9Closes.length = 200 := by
  unfold c9Closes c9Prefix c9Suffix
  rw [List.length_append, List.length_replicate]
  rfl

theorem c9_lastN15 : lastN 15 c9Closes = c9Suffix := by
  unfold lastN
  rw [c9_length]
  show List.drop 185 c9Closes = c9Suffix
  unfold c9Closes
  rw [show (185 : ℕ) = c9Prefix.length from by
    unfold c9Prefix
    rw [List.length_replicate]]
  exact List.drop_left _ _

theorem c9_rsi_value : rsi14 c9Closes = some 25 := by
  have hg : avgGainLast c9Closes = 1 / 14 := by
    unfold avgGainLast
    rw [gains_lastN, c9_lastN15]
    norm_num [c9Suffix, gains, diffs, mean]
  have hl : avgLossLast c9Closes = 3 / 14 := by
    unfold avgLossLast
    rw [losses_lastN, c9_lastN15]
    norm_num [c9Suffix, losses, diffs, mean]
  unfold rsi14
  rw [hg, hl]
  rw [if_pos (by norm_num)]
  have h1 : (100 - 100 / (1 + (1 / 14) / ((3 : ℚ) / 14))) = 25 := by norm_num
  rw [h1]
  have h2 : roundTo 1 (25 : ℚ) = 25 := by
    apply roundTo_of_mul_eq_int 1 25 250
    push_cast
    ring
  rw [h2]

/-- C9 witness: the theorem applied to the concrete 200-row series. -/
theorem c9_rsi_oversold_witness :
    200 ≤ c9Closes.length ∧ rsi14 c9Closes = some 25 ∧
    ((analyze_technical (some c9Closes)).rsi.interpretation = "Oversold" ∧
     (analyze_technical (some c9Closes)).rsi.value = some 25 ∧
     (analyze_technical (some c9Closes)).rsi.signal = 583 / 1000) :=
  ⟨le_of_eq c9_length.symm, c9_rsi_value,
   c9_rsi_oversold c9Closes (le_of_eq c9_length.symm) c9_rsi_value⟩

/-- C10: for every price series of at least 20 observations whose 20-period
Bollinger band width is zero, there is no division by zero — `%B` defaults
to `0.5`, the `Within Bands` branch is taken (possibly tagged with the
squeeze suffix), and the returned signal is `0.0`. -/
theorem c10_bollinger_zero_width (closes : List ℝ) (hlen : 20 ≤ closes.length)
    (hbw : bollBandWidth Real.sqrt closes = 0) :
    bollPctB Real.sqrt closes = 1 / 2 ∧
    (analyze_bollinger Real.sqrt (some closes)).signal = 0 ∧
    (analyze_bollinger Real.sqrt (some closes)).pct_b = 1 / 2 ∧
    ((analyze_bollinger Real.sqrt (some closes)).interpretation =
        "Within Bands" ∨
     (analyze_bollinger Real.sqrt (some closes)).interpretation =
        "Within Bands (Squeeze)") := by
  have hpctb : bollPctB Real.sqrt closes = 1 / 2 := by
    unfold bollPctB
    rw [hbw]
    rw [if_neg (lt_irrefl (0 : ℝ))]
  have hb : analyze_bollinger Real.sqrt (some closes) =
      bollingerBody Real.sqrt closes := by
    simp only [analyze_bollinger]
    rw [if_neg (by omega)]
  rw [hb]
  simp only [bollingerBody, hpctb]
  rw [if_neg (by norm_num : ¬((1 : ℝ) / 2 < 1 / 5)),
    if_neg (by norm_num : ¬((4 : ℝ) / 5 < 1 / 2))]
  have hz : clamp ((0 : ℝ)) = 0 := by
    unfold clamp
    norm_num
  have hhalf : roundTo 3 ((1 : ℝ) / 2) = 1 / 2 := by
    apply roundTo_of_mul_eq_int 3 _ 500
    push_cast
    ring
  refine ⟨trivial, ?_, hhalf, ?_⟩
  · split
    · have h0 : ((1 : ℝ) / 2 - 1 / 2) * 1 * (1 / 2) = 0 := by norm_num
      rw [h0, hz, roundTo_zero]
    · have h0 : ((1 : ℝ) / 2 - 1 / 2) * 1 = 0 := by norm_num
      rw [h0, hz, roundTo_zero]
  · split
    · exact Or.inr rfl
    · exact Or.inl rfl

/-- A flat 20-row series: its Bollinger band width is zero. -/
def c10Closes : List ℝ := List.replicate 20 1

theorem c10_bandwidth_zero : bollBandWidth Real.sqrt c10Closes = 0 := by
  have hlast : lastN 20 c10Closes = c10Closes := by
    unfold lastN c10Closes
    rw [List.length_replicate]
    norm_num
  have hmean : mean c10Closes = 1 := by
    unfold mean c10Closes
    rw [List.sum_replicate, List.length_replicate]
    norm_num
  have hvar : svar c10Closes = 0 := by
    unfold svar
    rw [hmean]
    have hmap : c10Closes.map (fun x => (x - 1) ^ 2) = List.replicate 20 0 := by
      unfold c10Closes
      rw [List.map_replicate]
      norm_num
    rw [hmap, List.sum_replicate]
    norm_num
  unfold bollBandWidth bollUpper bollLower bollStd
  rw [hlast, hvar, Real.sqrt_zero]
  ring

/-- C10 witness: the theorem applied to the flat series. -/
theorem c10_bollinger_zero_width_witness :
    20 ≤ c10Closes.length ∧ bollBandWidth Real.sqrt c10Closes = 0 ∧
    (bollPctB Real.sqrt c10Closes = 1 / 2 ∧
     (analyze_bollinger Real.sqrt (some c10Closes)).signal = 0 ∧
     (analyze_bollinger Real.sqrt (some c10Closes)).pct_b = 1 / 2 ∧
     ((analyze_bollinger Real.sqrt (some c10Closes)).interpretation =
         "Within Bands" ∨
      (analyze_bollinger Real.sqrt (some c10Closes)).interpretation =
         "Within Bands (Squeeze)")) :=
  ⟨by unfold c10Closes; rw [List.length_replicate], c10_bandwidth_zero,
   c10_bollinger_zero_width c10Closes
     (by unfold c10Closes; rw [List.length_replicate]) c10_bandwidth_zero⟩

theorem combinedScore_zero : combinedScoreOf zeroSignals = 0 := by
  have hsum : ((WEIGHTS (R := ℚ)).map
      (fun kv => (((signalsAList zeroSignals).lookup kv.1).getD 0) * kv.2)).sum
      = 0 := by
    simp [WEIGHTS, signalsAList, zeroSignals, List.lookup]
  have hcl : clamp ((0 : ℚ)) = 0 := by
    unfold clamp
    norm_num
  unfold combinedScoreOf
  rw [hsum, hcl, roundTo_zero]

theorem recommendation_zero : recommendationOf (0 : ℚ) = "Hold" := by
  unfold recommendationOf
  norm_num

theorem agreement_at_zero (s : Signals ℚ) : weightedAgreement s 0 = 0 := by
  simp [weightedAgreement, signalsAList]

theorem opposition_at_zero (s : Signals ℚ) : weightedOpposition s 0 = 0 := by
  simp [weightedOpposition, signalsAList]

theorem variance_at_zero : variancePenalty zeroSignals = 0 := by
  unfold variancePenalty
  simp [signalsAList, zeroSignals, mean]
  norm_num

theorem confidence_at_zero : confidenceFrom (0 : ℚ) 0 0 0 = 20 := by
  unfold confidenceFrom
  have h1 : (|(0 : ℚ)| * (1 / 2 + 0) - 0 * (1 / 2) - 0) * 100 + 20 = 20 := by
    norm_num
  rw [h1]
  have h2 : min (95 : ℚ) (max 15 20) = 20 := by norm_num
  rw [h2]
  apply roundTo_of_mul_eq_int 1 20 200
  push_cast
  ring

/-- Analyst-target data as the provider can actually return it: a mean
target and analyst count are present, but `targetLowPrice` is missing. -/
def c4Targets : ProviderTargets ℚ :=
  { current_price := 10, target_low := none, target_high := some 15
    target_mean := 12, target_median := none, num_analysts := 5 }

/-- An environment with no history and the C4 analyst-target data. -/
def c4Env : Env ℚ :=
  { hist2y := none, hist5y := none, spy := none, news := [], now := 0
    targets := some c4Targets, weekdayPct := 50, seasonalMonthPct := 50
    seasonalYtd := 0, seasonalLastYtd := 0, seasonalWeeklyReturns := []
    mlCleanLen := 0, mlLatestNull := false, mlFoldAcc := fun _ => 1 / 2
    mlProb := 1 / 2 }

/-- C4: `get_prediction` is *not* exception-free: when the provider's
analyst-target dictionary lacks `targetLowPrice`, the unguarded
`target_low - current` in `get_analyst_targets` raises a `TypeError` that
propagates out of `get_prediction` (every analyzer is wrapped in
`try`/`except`, but this call is not). -/
theorem c4_analyst_targets_exception :
    get_prediction (fun x : ℚ => x) c4Env = Except.error "TypeError" := rfl

/-- An environment in which the provider has no data at all: every history
horizon is `None`, the news list is empty and there is no analyst-target
data. -/
def emptyEnv : Env ℚ :=
  { hist2y := none, hist5y := none, spy := none, news := [], now := 0
    targets := none, weekdayPct := 50, seasonalMonthPct := 50
    seasonalYtd := 0, seasonalLastYtd := 0, seasonalWeeklyReturns := []
    mlCleanLen := 0, mlLatestNull := false, mlFoldAcc := fun _ => 1 / 2
    mlProb := 1 / 2 }

/-- C5 counterexample: with no price history at all, `get_prediction` does
*not* produce a data-unavailable failure — it returns a complete degraded
`Prediction` record recommending `Hold`. -/
theorem c5_counterexample :
    get_prediction (fun x : ℚ => x) emptyEnv =
      Except.ok (buildPrediction (fun x : ℚ => x) emptyEnv none) ∧
    (buildPrediction (fun x : ℚ => x) emptyEnv none).recommendation = "Hold" := by
  constructor
  · rfl
  · show recommendationOf (combinedScoreOf zeroSignals) = "Hold"
    rw [combinedScore_zero]
    exact recommendation_zero

/-- C5 (amended): when no price history is available for any horizon (and
the provider has no analyst-target data), `get_prediction` still returns a
full degraded `Prediction` — every signal neutral, `combined_score = 0.0`,
recommendation `Hold`, confidence `20.0` — rather than an explicit
data-unavailable failure. -/
theorem c5_no_history_degraded_hold (sqrtFn : ℚ → ℚ) (env : Env ℚ)
    (h2 : env.hist2y = none) (h5 : env.hist5y = none)
    (ht : env.targets = none) (hn : env.news = []) :
    get_prediction sqrtFn env =
      Except.ok (buildPrediction sqrtFn env none) ∧
    (buildPrediction sqrtFn env none).recommendation = "Hold" ∧
    (buildPrediction sqrtFn env none).combined_score = 0 ∧
    (buildPrediction sqrtFn env none).confidence = 20 := by
  obtain ⟨h2y, h5y, spy, news, now, targets, wpct, smp, syt, sly, swr,
    mcl, mln, mfa, mp⟩ := env
  dsimp only at h2 h5 ht hn
  subst h2 h5 ht hn
  refine ⟨rfl, ?_, ?_, ?_⟩
  · show recommendationOf (combinedScoreOf zeroSignals) = "Hold"
    rw [combinedScore_zero]
    exact recommendation_zero
  · show combinedScoreOf zeroSignals = 0
    exact combinedScore_zero
  · show confidenceFrom (combinedScoreOf zeroSignals)
      (weightedAgreement zeroSignals (combinedScoreOf zeroSignals))
      (weightedOpposition zeroSignals (combinedScoreOf zeroSignals))
      (variancePenalty zeroSignals) = 20
    rw [combinedScore_zero, agreement_at_zero, opposition_at_zero,
      variance_at_zero]
    exact confidence_at_zero

/-- C5 witness: the amended statement applied at the concrete empty
environment. -/
theorem c5_no_history_degraded_hold_witness :
    emptyEnv.hist2y = none ∧ emptyEnv.hist5y = none ∧
    emptyEnv.targets = none ∧ emptyEnv.news = [] ∧
    (get_prediction (fun x : ℚ => x) emptyEnv =
       Except.ok (buildPrediction (fun x : ℚ => x) emptyEnv none) ∧
     (buildPrediction (fun x : ℚ => x) emptyEnv none).recommendation = "Hold" ∧
     (buildPrediction (fun x : ℚ => x) emptyEnv none).combined_score = 0 ∧
     (buildPrediction (fun x : ℚ => x) emptyEnv none).confidence = 20) :=
  ⟨rfl, rfl, rfl, rfl,
   c5_no_history_degraded_hold (fun x => x) emptyEnv rfl rfl rfl rfl⟩

end ClaimTheorems

end StockPulse
